import Mathlib

/-!
Verification development for the creditcard-mt940 converter.

The Python source under src/creditcard_mt940 is shallowly embedded below:
Python Decimal values become the exact scaled-integer type Dec (coefficient
times 10^(-exp), matching Decimal's coefficient/exponent representation),
datetimes become Date/DateTime records (the parsers only ever produce
midnight timestamps from date-only patterns, and the claims only concern
calendar dates), and Python str builtins (lower, strip, replace, split,
int(), Decimal(), strftime, f-string padding) are modelled char-by-char so
that everything evaluates inside the kernel.  File decoding and the pandas
CSV reader are abstracted by an explicit table datatype; exceptions become
Except / Option results.
-/

/-! ### Python string builtins, modelled on character lists -/

/-- Decimal digit character for a digit value below ten (48 is the code of the zero character). -/
def digitChar (d : Nat) : Char := Char.ofNat (48 + d)

/-- Decimal numeral of a natural number, most significant digit first.
Fuel-based so that it reduces structurally; the fuel bounds the number of
digits, and natToChars supplies more fuel than any input can need. -/
def natToCharsAux : Nat → Nat → List Char
  | 0, _ => []
  | fuel+1, n =>
    if n < 10 then [digitChar n]
    else natToCharsAux fuel (n / 10) ++ [digitChar (n % 10)]

/-- Decimal numeral of a natural number, as Python str(n) produces it. -/
def natToChars (n : Nat) : List Char := natToCharsAux (n + 1) n

/-- Value of a list of decimal digit characters (most significant first). -/
def digitsToNat (cs : List Char) : Nat :=
  cs.foldl (fun acc c => acc * 10 + (c.toNat - 48)) 0

/-- Python str.replace for a single-character pattern and replacement
(str.replace with 1-character arguments is exactly a character map). -/
def replaceChar (old new : Char) (l : List Char) : List Char :=
  l.map (fun c => if c = old then new else c)

/-- Python str.replace, general case: replace every non-overlapping
occurrence of pat, scanning left to right.  Fuel-based for structural
reduction; pyReplace passes the string length, which bounds the number of
scanning steps since every step consumes at least one character. -/
def replaceAux (pat rep : List Char) : Nat → List Char → List Char
  | 0, l => l
  | _+1, [] => []
  | fuel+1, c :: rest =>
    if pat.isPrefixOf (c :: rest) then
      rep ++ replaceAux pat rep fuel ((c :: rest).drop pat.length)
    else c :: replaceAux pat rep fuel rest

/-- Python str.replace on strings (the sources never call it with an empty
pattern, which is returned unchanged here). -/
def pyReplace (s pat rep : String) : String :=
  if pat.data.isEmpty then s
  else String.mk (replaceAux pat.data rep.data s.data.length s.data)

/-- Python str.split(sep) for a single-character separator. -/
def splitOnChar (sep : Char) : List Char → List (List Char)
  | [] => [[]]
  | c :: rest =>
    match splitOnChar sep rest with
    | [] => [[]]
    | part :: parts =>
      if c = sep then [] :: part :: parts
      else (c :: part) :: parts

/-- Python str.lower (the keyword tables in the sources are ASCII). -/
def pyLower (s : String) : String := String.mk (s.data.map Char.toLower)

/-- Python str.upper (used on the ICS debit/credit flag). -/
def pyUpper (s : String) : String := String.mk (s.data.map Char.toUpper)

/-- Python whitespace test used by str.strip. -/
def isPySpace (c : Char) : Bool :=
  c = ' ' || c = '\t' || c = '\n' || c = '\r' || c = '\x0b' || c = '\x0c'

/-- Python str.strip with no arguments. -/
def pyStrip (s : String) : String :=
  String.mk (((s.data.dropWhile isPySpace).reverse.dropWhile isPySpace).reverse)

/-- Occurrence test for Python's substring containment operator. -/
def listHasSub (pat : List Char) : List Char → Bool
  | [] => pat.isEmpty
  | c :: rest => pat.isPrefixOf (c :: rest) || listHasSub pat rest

/-- Python substring containment, pat in s. -/
def pyContains (s pat : String) : Bool := listHasSub pat.data s.data

/-- Left-pad a character list to the given width (Python format spec fill-right-align). -/
def padLeftChar (fill : Char) (width : Nat) (l : List Char) : List Char :=
  List.replicate (width - l.length) fill ++ l

/-- Right-pad a character list to the given width (Python format spec fill-left-align). -/
def padRightChar (fill : Char) (width : Nat) (l : List Char) : List Char :=
  l ++ List.replicate (width - l.length) fill

/-- Python int(str): optional surrounding whitespace, optional sign, then
decimal digits; anything else raises ValueError, modelled as none. -/
def pyInt (s : String) : Option Int :=
  match (pyStrip s).data with
  | [] => none
  | '-' :: rest =>
    if rest ≠ [] ∧ rest.all Char.isDigit then some (-(digitsToNat rest : Int)) else none
  | '+' :: rest =>
    if rest ≠ [] ∧ rest.all Char.isDigit then some ((digitsToNat rest : Int)) else none
  | cs =>
    if cs.all Char.isDigit then some ((digitsToNat cs : Int)) else none

/-! ### Python Decimal, as exact scaled integers

A Dec is coefficient num with exponent -exp, i.e. the rational num / 10^exp.
This mirrors decimal.Decimal's coefficient/exponent representation for the
finite, non-positive-exponent values the converter handles; Decimal
addition keeps the smaller exponent exactly, and none of the sources ever
trigger context rounding. -/

structure Dec where
  num : Int
  exp : Nat
deriving DecidableEq, Repr

/-- Coefficient of a Dec re-scaled to a (larger) exponent. -/
def Dec.alignedNum (a : Dec) (e : Nat) : Int := a.num * (10 : Int) ^ (e - a.exp)

/-- Exact Decimal addition: align to the finer scale and add coefficients. -/
def Dec.add (a b : Dec) : Dec :=
  ⟨a.alignedNum (max a.exp b.exp) + b.alignedNum (max a.exp b.exp), max a.exp b.exp⟩

/-- Decimal negation. -/
def Dec.neg (a : Dec) : Dec := ⟨-a.num, a.exp⟩

/-- Python abs on Decimal. -/
def Dec.dabs (a : Dec) : Dec := ⟨|a.num|, a.exp⟩

/-- Boolean comparison a ≤ b on Decimals, by comparing aligned coefficients. -/
def Dec.ble (a b : Dec) : Bool :=
  a.alignedNum (max a.exp b.exp) ≤ b.alignedNum (max a.exp b.exp)

/-- Boolean comparison a < b on Decimals. -/
def Dec.blt (a b : Dec) : Bool :=
  a.alignedNum (max a.exp b.exp) < b.alignedNum (max a.exp b.exp)

/-- Rational value of a Dec; the bridge from the executable Decimal model
to ideal arithmetic. -/
def Dec.toRat (a : Dec) : ℚ := (a.num : ℚ) / (10 : ℚ) ^ a.exp

/-- Integer n (Dec of exponent zero). -/
def Dec.ofInt (n : Int) : Dec := ⟨n, 0⟩

/-- Python Decimal(str) for finite decimal literals: optional surrounding
whitespace and sign, digits with at most one point, at least one digit in
total; other inputs (including exponent notation, which no bank file uses)
are modelled as a parse failure. -/
def parseDec (s : String) : Option Dec :=
  let t := (pyStrip s).data
  let core : List Char → Option Dec := fun cs =>
    match splitOnChar '.' cs with
    | [ip] =>
      if ip ≠ [] ∧ ip.all Char.isDigit then some ⟨(digitsToNat ip : Int), 0⟩ else none
    | [ip, fp] =>
      if (ip ++ fp) ≠ [] ∧ ip.all Char.isDigit ∧ fp.all Char.isDigit then
        some ⟨(digitsToNat (ip ++ fp) : Int), fp.length⟩
      else none
    | _ => none
  match t with
  | '-' :: rest => (core rest).map Dec.neg
  | '+' :: rest => core rest
  | cs => core cs

/-! ### Calendar dates and clock readings -/

/-- Calendar date (the parsers only produce midnight datetimes from
date-only patterns, so a date triple carries all information the claims
use; datetime.date() comparison is plain equality of the triple). -/
structure Date where
  year : Nat
  month : Nat
  day : Nat
deriving DecidableEq, Repr

/-- Wall-clock reading, the value datetime.now() returns at some instant. -/
structure DateTime where
  date : Date
  hour : Nat
  minute : Nat
  second : Nat
deriving DecidableEq, Repr

/-- Zero-padded numeral of fixed width, as strftime and format specs emit. -/
def padNum (width n : Nat) : List Char := padLeftChar '0' width (natToChars n)

/-- strftime of a date in percent-y percent-m percent-d order (two-digit year). -/
def fmtYYMMDD (d : Date) : String :=
  String.mk (padNum 2 (d.year % 100) ++ padNum 2 d.month ++ padNum 2 d.day)

/-- strftime of a date in ISO order with dashes. -/
def fmtISODate (d : Date) : String :=
  String.mk (padNum 4 d.year ++ ['-'] ++ padNum 2 d.month ++ ['-'] ++ padNum 2 d.day)

/-- strftime of a date as compact year-month-day digits. -/
def fmtYYYYMMDD (d : Date) : String :=
  String.mk (padNum 4 d.year ++ padNum 2 d.month ++ padNum 2 d.day)

/-- strftime of a clock time as compact hour-minute-second digits. -/
def fmtHHMMSS (t : DateTime) : String :=
  String.mk (padNum 2 t.hour ++ padNum 2 t.minute ++ padNum 2 t.second)

/-- strftime of a full timestamp in ISO format with a T separator. -/
def fmtISODateTime (t : DateTime) : String :=
  fmtISODate t.date ++ "T" ++
    String.mk (padNum 2 t.hour ++ [':'] ++ padNum 2 t.minute ++ [':'] ++ padNum 2 t.second)

/-- Day count of a month, with leap years (datetime's validity rule). -/
def daysInMonth (year month : Nat) : Nat :=
  if month = 2 then
    if year % 4 = 0 ∧ (year % 100 ≠ 0 ∨ year % 400 = 0) then 29 else 28
  else if month = 4 ∨ month = 6 ∨ month = 9 ∨ month = 11 then 30
  else 31

/-- Python datetime.strptime with the day-month-year dashed pattern: the
day and month directives match one or two digits within range, the year
directive exactly four digits, and datetime construction rejects a day
beyond the month length. Failure (ValueError) is modelled as none. -/
def strptimeDMY (s : String) : Option Date :=
  match splitOnChar '-' s.data with
  | [ds, ms, ys] =>
    if ds ≠ [] ∧ ds.length ≤ 2 ∧ ds.all Char.isDigit ∧
       ms ≠ [] ∧ ms.length ≤ 2 ∧ ms.all Char.isDigit ∧
       ys.length = 4 ∧ ys.all Char.isDigit then
      let d := digitsToNat ds
      let m := digitsToNat ms
      let y := digitsToNat ys
      if 1 ≤ m ∧ m ≤ 12 ∧ 1 ≤ d ∧ d ≤ daysInMonth y m then
        some ⟨y, m, d⟩
      else none
    else none
  | _ => none

/-! ### Canonical Transaction and AccountStatement (mt940/formatter.py:9-29) -/

/-- Transaction dataclass from mt940/formatter.py. -/
structure Transaction where
  date : Date
  amount : Dec
  description : String
  counter_account : Option String := none
  reference : Option String := none
  transaction_type : String := "TRANSFER"
deriving DecidableEq, Repr

/-- AccountStatement dataclass from mt940/formatter.py. -/
structure AccountStatement where
  account_number : String
  statement_number : String
  opening_balance : Dec
  closing_balance : Dec
  transactions : List Transaction
  currency : String := "EUR"
  date : Option Date := none
deriving DecidableEq, Repr

/-! ### Rabobank legacy parser (parsers/rabobank_old_parser.py) -/

namespace Rabo

/-- RawTransaction dataclass from rabobank_old_parser.py. -/
structure RawTransaction where
  counter_account : String
  reference : String
  date : Date
  amount : Dec
  description : String
  original_amount : Option Dec := none
  original_currency : Option String := none
  exchange_rate : Option Dec := none
deriving DecidableEq, Repr

/-- Exchange-rate keyword table set in RabobankParser.__init__. -/
def exchange_rate_keywords : List String := ["koersopslag"]

/-- Settlement keyword table set in RabobankParser.__init__. -/
def settlement_keywords : List String := ["verrekening vorig overzicht"]

/-- Ignored-row keyword table set in RabobankParser.__init__. -/
def ignored_keywords : List String := ["monthly payment memo"]

/-- RabobankParser._is_exchange_rate_surcharge (rabobank_old_parser.py:188). -/
def is_exchange_rate_surcharge (t : RawTransaction) : Bool :=
  exchange_rate_keywords.any (fun k => pyContains (pyLower t.description) k)

/-- RabobankParser._is_previous_statement_settlement (rabobank_old_parser.py:193). -/
def is_previous_statement_settlement (t : RawTransaction) : Bool :=
  settlement_keywords.any (fun k => pyContains (pyLower t.description) k)

/-- RabobankParser._transactions_are_related (rabobank_old_parser.py:198):
same calendar date and integer references in immediate succession; a
non-numeric reference (int() ValueError) makes the rows unrelated. -/
def transactions_are_related (t1 t2 : RawTransaction) : Bool :=
  if t1.date ≠ t2.date then false
  else
    match pyInt t1.reference, pyInt t2.reference with
    | some r1, some r2 => r2 = r1 + 1
    | _, _ => false

/-- RabobankParser._classify_transaction (rabobank_old_parser.py:212). -/
def classify_transaction (t : RawTransaction) : String :=
  let description := pyLower t.description
  if ["betaalautomaat", "apple pay", "card", "pos"].any (fun k => pyContains description k) then
    "CARD"
  else if ["incasso", "automatische", "subscription", "recurring"].any
      (fun k => pyContains description k) then
    "DIRECT_DEBIT"
  else if Dec.blt (Dec.ofInt 0) t.amount then "CREDIT"
  else "TRANSFER"

/-- Settlement Transaction built at rabobank_old_parser.py:148-155. -/
def settlement_transaction (cur : RawTransaction) : Transaction :=
  { date := cur.date
    amount := cur.amount.dabs
    description := "Settlement previous statement"
    counter_account := some cur.counter_account
    reference := some cur.reference
    transaction_type := "CREDIT" }

/-- RabobankParser._apply_business_rules (rabobank_old_parser.py:131-186):
the forward-cursor loop, written as recursion on the remaining rows.  A
surcharge row under the cursor is skipped; a settlement row is emitted
converted; otherwise the row is emitted, merged with the immediately
following row when that row is a related surcharge (which is then
consumed). -/
def apply_business_rules : List RawTransaction → List Transaction
  | [] => []
  | [cur] =>
    if is_exchange_rate_surcharge cur then []
    else if is_previous_statement_settlement cur then [settlement_transaction cur]
    else
      [{ date := cur.date, amount := cur.amount, description := cur.description,
         counter_account := some cur.counter_account, reference := some cur.reference,
         transaction_type := classify_transaction cur }]
  | cur :: nxt :: rest =>
    if is_exchange_rate_surcharge cur then apply_business_rules (nxt :: rest)
    else if is_previous_statement_settlement cur then
      settlement_transaction cur :: apply_business_rules (nxt :: rest)
    else if is_exchange_rate_surcharge nxt ∧ transactions_are_related cur nxt then
      { date := cur.date, amount := cur.amount.add nxt.amount,
        description := cur.description ++ " (incl. exchange rate surcharge)",
        counter_account := some cur.counter_account, reference := some cur.reference,
        transaction_type := classify_transaction cur } :: apply_business_rules rest
    else
      { date := cur.date, amount := cur.amount, description := cur.description,
        counter_account := some cur.counter_account, reference := some cur.reference,
        transaction_type := classify_transaction cur } :: apply_business_rules (nxt :: rest)

end Rabo

/-! ### Legacy CSV parser (parsers/csv_parser.py) -/

namespace CsvP

/-- RawTransaction dataclass from csv_parser.py (same fields as the
Rabobank one; the module re-declares it). -/
structure RawTransaction where
  counter_account : String
  reference : String
  date : Date
  amount : Dec
  description : String
  original_amount : Option Dec := none
  original_currency : Option String := none
  exchange_rate : Option Dec := none
deriving DecidableEq, Repr

/-- Exchange-rate keyword table set in CSVParser.__init__. -/
def exchange_rate_keywords : List String := ["koersopslag"]

/-- Settlement keyword table set in CSVParser.__init__. -/
def settlement_keywords : List String := ["verrekening vorig overzicht"]

/-- CSVParser._is_exchange_rate_surcharge (csv_parser.py:167). -/
def is_exchange_rate_surcharge (t : RawTransaction) : Bool :=
  exchange_rate_keywords.any (fun k => pyContains (pyLower t.description) k)

/-- CSVParser._is_previous_statement_settlement (csv_parser.py:172). -/
def is_previous_statement_settlement (t : RawTransaction) : Bool :=
  settlement_keywords.any (fun k => pyContains (pyLower t.description) k)

/-- CSVParser._transactions_are_related (csv_parser.py:177). -/
def transactions_are_related (t1 t2 : RawTransaction) : Bool :=
  if t1.date ≠ t2.date then false
  else
    match pyInt t1.reference, pyInt t2.reference with
    | some r1, some r2 => r2 = r1 + 1
    | _, _ => false

/-- Settlement Transaction built at csv_parser.py:129-135.  Note that this
constructor call passes no transaction_type, so the dataclass default
TRANSFER applies (unlike the Rabobank parser, which passes CREDIT). -/
def settlement_transaction (cur : RawTransaction) : Transaction :=
  { date := cur.date
    amount := cur.amount.dabs
    description := "Settlement previous statement"
    counter_account := some cur.counter_account
    reference := some cur.reference }

/-- CSVParser._apply_business_rules (csv_parser.py:112-165); identical
cursor logic to the Rabobank pass except that the emitted Transactions
carry no classification (dataclass default TRANSFER). -/
def apply_business_rules : List RawTransaction → List Transaction
  | [] => []
  | [cur] =>
    if is_exchange_rate_surcharge cur then []
    else if is_previous_statement_settlement cur then [settlement_transaction cur]
    else
      [{ date := cur.date, amount := cur.amount, description := cur.description,
         counter_account := some cur.counter_account, reference := some cur.reference }]
  | cur :: nxt :: rest =>
    if is_exchange_rate_surcharge cur then apply_business_rules (nxt :: rest)
    else if is_previous_statement_settlement cur then
      settlement_transaction cur :: apply_business_rules (nxt :: rest)
    else if is_exchange_rate_surcharge nxt ∧ transactions_are_related cur nxt then
      { date := cur.date, amount := cur.amount.add nxt.amount,
        description := cur.description ++ " (incl. exchange rate surcharge)",
        counter_account := some cur.counter_account,
        reference := some cur.reference } :: apply_business_rules rest
    else
      { date := cur.date, amount := cur.amount, description := cur.description,
        counter_account := some cur.counter_account,
        reference := some cur.reference } :: apply_business_rules (nxt :: rest)

/-- CSVParser.calculate_totals (csv_parser.py:218); Python sum starts from
the integer zero, which coerces to Decimal on first addition. -/
def calculate_totals (transactions : List Transaction) : Dec × Dec × Dec × Nat :=
  let total_credits :=
    (transactions.filter (fun t => Dec.blt (Dec.ofInt 0) t.amount)).foldl
      (fun acc t => acc.add t.amount) (Dec.ofInt 0)
  let total_debits :=
    (transactions.filter (fun t => Dec.blt t.amount (Dec.ofInt 0))).foldl
      (fun acc t => acc.add t.amount) (Dec.ofInt 0)
  (total_credits, total_debits, total_credits.add total_debits, transactions.length)

end CsvP

/-! ### ICS parser (parsers/ics_parser.py) -/

namespace Ics

/-- RawTransaction dataclass from ics_parser.py. -/
structure RawTransaction where
  transaction_date : Date
  booking_date : Date
  description : String
  cardholder_name : String
  card_number : String
  debit_credit : String
  amount : Dec
  merchant_category : Option String := none
  country : Option String := none
  currency : String := "EUR"
  original_amount : Option Dec := none
  transaction_type : Option String := none
  wallet_provider : Option String := none
deriving DecidableEq, Repr

/-- Settlement keyword table set in IcsParser.__init__. -/
def settlement_keywords : List String :=
  ["geincasseerd vorig saldo", "verrekening vorig saldo"]

/-- IcsParser._is_previous_statement_settlement (ics_parser.py:200). -/
def is_previous_statement_settlement (t : RawTransaction) : Bool :=
  settlement_keywords.any (fun k => pyContains (pyLower t.description) k)

/-- Normalisation applied to the Debit/Credit column when raw rows are
built (ics_parser.py:111): strip then upper-case. -/
def normalize_flag (s : String) : String := pyUpper (pyStrip s)

/-- IcsParser._apply_ics_sign_logic (ics_parser.py:184-198): the amount
sign is flipped for both explicit flags, any other flag keeps the amount
as is. -/
def apply_ics_sign_logic (t : RawTransaction) : Dec × String :=
  if t.debit_credit = "C" then (t.amount.neg, "CREDIT")
  else if t.debit_credit = "D" then (t.amount.neg, "TRANSFER")
  else (t.amount, "TRANSFER")

/-- Body of the enumerate loop in IcsParser._apply_business_rules
(ics_parser.py:145-180) for index i: a settlement row is emitted with the
fixed description and forced CREDIT type, every other row with the
sign-logic amount and type; each row yields exactly one Transaction. -/
def process_row (i : Nat) (t : RawTransaction) : Transaction :=
  if is_previous_statement_settlement t then
    { date := t.transaction_date
      amount := (apply_ics_sign_logic t).1
      description := "Settlement previous statement"
      counter_account := some ("ICS" ++ t.card_number)
      reference := some (String.mk (natToChars (50000000000 + i + 1)))
      transaction_type := "CREDIT" }
  else
    { date := t.transaction_date
      amount := (apply_ics_sign_logic t).1
      description := t.description
      counter_account :=
        some ("NL00ICS0" ++ String.mk (replaceChar '*' '0' t.card_number.data))
      reference := some (String.mk (natToChars (50000000000 + i + 1)))
      transaction_type := (apply_ics_sign_logic t).2 }

/-- IcsParser._apply_business_rules (ics_parser.py:141-182), the enumerate
loop over the raw rows. -/
def apply_business_rules_from (i : Nat) : List RawTransaction → List Transaction
  | [] => []
  | t :: rest => process_row i t :: apply_business_rules_from (i + 1) rest

/-- IcsParser._apply_business_rules applied from index zero. -/
def apply_business_rules (l : List RawTransaction) : List Transaction :=
  apply_business_rules_from 0 l

end Ics

/-- Rounding division with ties to even (banker's rounding), for a positive
divisor: the rounding Python applies when formatting a Decimal to a fixed
number of places. -/
def halfEvenDiv (n d : Int) : Int :=
  let q := Int.ediv n d
  let r := Int.emod n d
  if 2 * r < d then q
  else if d < 2 * r then q + 1
  else if Int.emod q 2 = 0 then q else q + 1

/-- Coefficient of a Dec rounded (half to even) to two decimal places: the
integer count of cents a two-place format emits. -/
def Dec.cents2 (a : Dec) : Int :=
  if a.exp ≤ 2 then a.num * (10 : Int) ^ (2 - a.exp)
  else halfEvenDiv a.num ((10 : Int) ^ (a.exp - 2))

/-- Python format of a Decimal to two decimal places (the .2f format spec):
sign, integer part, point, exactly two fractional digits. -/
def decFixed2 (a : Dec) : List Char :=
  let n := a.cents2
  let sign := if n < 0 then ['-'] else ([] : List Char)
  sign ++ natToChars (n.natAbs / 100) ++ ['.'] ++ padLeftChar '0' 2 (natToChars (n.natAbs % 100))

/-! ### MT940 formatter (mt940/formatter.py) -/

namespace MT940

/-- MT940Formatter._format_balance (mt940/formatter.py:108-120): sign flag,
two-digit-year date, currency, then the absolute amount rendered to two
decimals, its point replaced by a comma, split on the comma, and the parts
padded (integer part right-aligned to width nine with zero fill,
fractional part left-aligned to width two with zero fill). -/
def format_balance (field_code : String) (amount : Dec) (currency : String)
    (date : Date) : String :=
  let credit_debit := if Dec.ble (Dec.ofInt 0) amount then "C" else "D"
  let abs_amount := amount.dabs
  let date_str := fmtYYMMDD date
  let amount_chars := replaceChar '.' ',' (decFixed2 abs_amount)
  let parts := splitOnChar ',' amount_chars
  let packed := padLeftChar '0' 9 (parts.headD []) ++ [','] ++
    padRightChar '0' 2 ((parts.drop 1).headD [])
  ":" ++ field_code ++ ":" ++ credit_debit ++ date_str ++ currency ++ String.mk packed

/-- MT940Formatter._get_transaction_code (mt940/formatter.py:149). -/
def get_transaction_code (t : Transaction) : String :=
  if t.transaction_type = "CARD" then "N002"
  else if t.transaction_type = "TRANSFER" then "N544"
  else if t.transaction_type = "DIRECT_DEBIT" then "N064"
  else if t.transaction_type = "CREDIT" then "N541"
  else "N544"

/-- Truthiness of the optional reference, as the Python if tests it (an
empty string is falsy and falls back to the counter). -/
def ref_truthy : Option String → Bool
  | none => false
  | some s => !(s = "")

/-- MT940Formatter._format_transaction (mt940/formatter.py:122-147):
returns the two-line field 61 text and the updated reference counter. -/
def format_transaction (counter : Nat) (t : Transaction) : String × Nat :=
  let date_str := fmtYYMMDD t.date
  let credit_debit := if Dec.ble (Dec.ofInt 0) t.amount then "C" else "D"
  let amount_chars := replaceChar '.' ',' (decFixed2 t.amount.dabs)
  let parts := splitOnChar ',' amount_chars
  let amount_str := String.mk (padLeftChar '0' 9 (parts.headD []) ++ [','] ++
    padRightChar '0' 2 ((parts.drop 1).headD []))
  let transaction_code := get_transaction_code t
  let ref_number := match t.reference with
    | some r => if r = "" then String.mk (padNum 11 counter) else r
    | none => String.mk (padNum 11 counter)
  let counter2 := if ref_truthy t.reference then counter else counter + 1
  (":61:" ++ date_str ++ credit_debit ++ amount_str ++ transaction_code ++
     "NONREF//" ++ ref_number ++ "\n0000000000", counter2)

/-- MT940Formatter._format_transaction_info (mt940/formatter.py:163-187). -/
def format_transaction_info (t : Transaction) : String :=
  let trcd_code := if t.transaction_type = "CARD" then "002" else "544"
  let description := pyUpper t.description
  let name_part := if description.length > 25 then description.take 25 else description
  let remi_part := if description.length > 25 then description.drop 25 else ""
  let info_line := "/TRCD/" ++ trcd_code ++ "/BENM//NAME/" ++ name_part
  let info_line2 := if remi_part ≠ "" then info_line ++ "/REMI/" ++ remi_part else info_line
  ":86:" ++ info_line2

/-- Field 61/86 line pairs for the transaction list, threading the
reference counter through the loop of mt940/formatter.py:70-77. -/
def transaction_lines (counter : Nat) : List Transaction → List String
  | [] => []
  | t :: rest =>
    let (line, counter2) := format_transaction counter t
    line :: format_transaction_info t :: transaction_lines counter2 rest

/-- Line list of MT940Formatter.format_statement (mt940/formatter.py:38-106).
The formatter resets its instance counter to one on entry, so the line list
does not depend on the counter value left by earlier calls; now stands for
the datetime.now() fallback used when the statement carries no date. -/
def statement_lines (s : AccountStatement) (now : DateTime) : List String :=
  let stmt_date := s.date.getD now.date
  let ref_number := pyReplace s.statement_number "CC" "940S"
  let seq_number0 := pyReplace (pyReplace s.statement_number "CC20" "") "25" "25"
  let seq_number := if seq_number0.length > 5 then
    seq_number0.drop (seq_number0.length - 5) else seq_number0
  [":940:", ":20:" ++ ref_number, ":25:" ++ s.account_number ++ " " ++ s.currency,
   ":28C:" ++ seq_number,
   format_balance "60F" s.opening_balance s.currency stmt_date] ++
  transaction_lines 1 s.transactions ++
  [format_balance "62F" s.closing_balance s.currency stmt_date,
   format_balance "64" s.closing_balance s.currency stmt_date,
   format_balance "65" s.closing_balance s.currency stmt_date]

/-- MT940Formatter.format_statement: the joined text.  The counter argument
is the transaction_reference_counter the formatter instance holds when the
call starts; line 41 of the source resets it to one before any line is
produced. -/
def format_statement (_counter : Nat) (s : AccountStatement) (now : DateTime) : String :=
  String.intercalate "\n" (statement_lines s now)

/-- MT940Formatter.calculate_closing_balance (mt940/formatter.py:189-192):
Python sum starts from the integer zero and folds the amounts, then the
opening balance is added. -/
def calculate_closing_balance (opening_balance : Dec) (transactions : List Transaction) : Dec :=
  let total_transactions :=
    transactions.foldl (fun acc t => acc.add t.amount) (Dec.ofInt 0)
  opening_balance.add total_transactions

end MT940

/-! ### CAMT.053 formatter (camt/formatter.py) -/

/-- XML tree as ElementTree builds it: elements with ordered attributes and
children, and text nodes. -/
inductive Xml where
  | el (tag : String) (attrs : List (String × String)) (children : List Xml)
  | txt (s : String)

/-- Escaping minidom applies when re-serialising character data and
attribute values (ampersand, angle brackets and double quote). -/
def escapeData (s : String) : String :=
  String.mk (s.data.flatMap (fun c =>
    if c = '&' then "&amp;".data
    else if c = '<' then "&lt;".data
    else if c = '"' then "&quot;".data
    else if c = '>' then "&gt;".data
    else [c]))

/-- Pretty rendering of an element, as ElementTree.tostring piped through
minidom.toprettyxml with a two-space indent produces it: every element on
its own line, children indented one step, an element whose only child is a
text node rendered inline, childless elements self-closed.  Fuel-based for
structural reduction; the fuel bounds the tree depth and every caller
passes more than the fixed document layout can need. -/
def renderXml : Nat → String → Xml → String
  | 0, _, _ => ""
  | _+1, ind, Xml.txt s => ind ++ escapeData s ++ "\n"
  | fuel+1, ind, Xml.el tag attrs children =>
    let attr_str := String.join (attrs.map (fun p =>
      " " ++ p.1 ++ "=\"" ++ escapeData p.2 ++ "\""))
    match children with
    | [] => ind ++ "<" ++ tag ++ attr_str ++ "/>" ++ "\n"
    | [Xml.txt s] =>
      ind ++ "<" ++ tag ++ attr_str ++ ">" ++ escapeData s ++ "</" ++ tag ++ ">" ++ "\n"
    | cs =>
      ind ++ "<" ++ tag ++ attr_str ++ ">" ++ "\n" ++
        String.join (cs.map (renderXml fuel (ind ++ "  "))) ++
        ind ++ "</" ++ tag ++ ">" ++ "\n"

/-- Truthiness of an optional string under Python's or, where both None and
the empty string fall through to the alternative. -/
def optTruthy : Option String → Bool
  | none => false
  | some s => !(s = "")

/-- Value of an optional string under Python's x or y. -/
def orDefault (x : Option String) (y : String) : String :=
  match x with
  | some s => if s = "" then y else s
  | none => y

namespace Camt

/-- Element with a single text child, the SubElement-plus-text idiom of the
formatter; ElementTree treats empty text the same as absent text. -/
def leaf (tag : String) (attrs : List (String × String)) (text : String) : Xml :=
  Xml.el tag attrs (if text = "" then [] else [Xml.txt text])

/-- CAMT053Formatter._add_transaction (camt/formatter.py:111-189) for the
entry with one-based sequence number seq_num. -/
def add_transaction (t : Transaction) (seq_num : Nat) : Xml :=
  let refs := Xml.el "Refs" []
    [leaf "EndToEndId" [] (orDefault t.reference ("E2E" ++ String.mk (padNum 6 seq_num))),
     leaf "TxId" [] ("RABO" ++ String.mk (padNum 10 seq_num)),
     leaf "InstrId" [] ("INSTR" ++ String.mk (padNum 6 seq_num))]
  let rltd := if optTruthy t.counter_account then
      [Xml.el "RltdPties" [] [Xml.el "DbtrAcct" []
        [Xml.el "Id" [] [leaf "IBAN" [] (t.counter_account.getD "")]]]]
    else []
  let tx_dtls := Xml.el "TxDtls" []
    ([refs] ++ rltd ++
     [Xml.el "RmtInf" [] [leaf "Ustrd" [] (t.description.take 140)],
      Xml.el "BkTxCd" [] [Xml.el "Domn" []
        [leaf "Cd" [] "PMNT",
         Xml.el "Fmly" [] [leaf "Cd" []
           (if t.transaction_type = "CARD" then "CCRD"
            else if t.transaction_type = "TRANSFER" then "ICDT"
            else if t.transaction_type = "DIRECT_DEBIT" then "DDBT"
            else "TRAF")]]]])
  Xml.el "Ntry" []
    [leaf "Amt" [("Ccy", "EUR")] (String.mk (decFixed2 t.amount.dabs)),
     leaf "CdtDbtInd" [] (if Dec.ble (Dec.ofInt 0) t.amount then "CRDT" else "DBIT"),
     leaf "Sts" [] "BOOK",
     Xml.el "BookgDt" [] [leaf "Dt" [] (fmtISODate t.date)],
     Xml.el "ValDt" [] [leaf "Dt" [] (fmtISODate t.date)],
     leaf "AcctSvcrRef" []
       (orDefault t.reference ("RABO" ++ String.mk (padNum 10 seq_num))),
     Xml.el "NtryDtls" [] [tx_dtls]]

/-- Entry elements for the transaction list with one-based sequence numbers
(the enumerate loop at camt/formatter.py:103-104). -/
def entries_from (i : Nat) : List Transaction → List Xml
  | [] => []
  | t :: rest => add_transaction t (i + 1) :: entries_from (i + 1) rest

/-- CAMT053Formatter.format_statement (camt/formatter.py:18-109); now is
the wall clock the two datetime.now() calls read during the call. -/
def format_statement (s : AccountStatement) (now : DateTime) : String :=
  let grp_hdr := Xml.el "GrpHdr" []
    [leaf "MsgId" [] ("RABO" ++ s.statement_number ++ fmtHHMMSS now),
     leaf "CreDtTm" [] (fmtISODateTime now),
     Xml.el "MsgRcpt" [] [leaf "Nm" [] "Customer"],
     Xml.el "InitgPty" []
       [leaf "Nm" [] "Rabobank Nederland",
        Xml.el "Id" [] [Xml.el "OrgId" [] [leaf "BIC" [] "RABONL2U"]]]]
  let acct := Xml.el "Acct" []
    [Xml.el "Id" [] [leaf "IBAN" [] s.account_number],
     leaf "Ccy" [] s.currency,
     Xml.el "Ownr" [] [leaf "Nm" [] "Rabobank"],
     Xml.el "Svcr" [] [Xml.el "FinInstnId" []
       [leaf "BIC" [] "RABONL2U", leaf "Nm" [] "Rabobank Nederland"]]]
  let bal := Xml.el "Bal" []
    [Xml.el "Tp" [] [Xml.el "CdOrPrtry" [] [leaf "Cd" [] "CLBD"]],
     leaf "Amt" [("Ccy", s.currency)] (String.mk (decFixed2 s.closing_balance.dabs)),
     leaf "CdtDbtInd" []
       (if Dec.ble (Dec.ofInt 0) s.closing_balance then "CRDT" else "DBIT"),
     Xml.el "Dt" [] [leaf "Dt" [] (fmtISODate (s.date.getD now.date))]]
  let stmt := Xml.el "Stmt" []
    ([leaf "Id" [] s.statement_number,
      leaf "CreDtTm" [] (fmtISODateTime now),
      acct, bal] ++ entries_from 0 s.transactions)
  let root := Xml.el "Document"
    [("xmlns", "urn:iso:std:iso:20022:tech:xsd:camt.053.001.02"),
     ("xmlns:xsi", "http://www.w3.org/2001/XMLSchema-instance")]
    [Xml.el "BkToCstmrStmt" [] [grp_hdr, stmt]]
  "<?xml version=\"1.0\" ?>" ++ "\n" ++ renderXml 100 "" root

end Camt

/-! ### Transaction processor (processors/transaction_processor.py) -/

namespace Processor

/-- Account information a parser's get_account_info returns. -/
structure AccountInfo where
  account_number : String
  start_date : Date
  end_date : Date
deriving DecidableEq, Repr

/-- TransactionProcessor._generate_statement_number (transaction_processor.py:109). -/
def generate_statement_number (start_date : Date) : String :=
  "CC" ++ fmtYYYYMMDD start_date

/-- TransactionProcessor._calculate_opening_balance
(transaction_processor.py:113-117): the literal Decimal 0.00, exponent
minus two. -/
def calculate_opening_balance (_transactions : List Transaction) : Dec := ⟨0, 2⟩

/-- Statement assembly of TransactionProcessor.process_file_to_mt940
(transaction_processor.py:40-60), starting from the parsed transactions and
derived account info; explicit caller values win over derived ones through
Python or (so an empty caller string also falls back), the opening balance
only through an explicit is-None test. -/
def process_file_to_mt940_statement (transactions : List Transaction)
    (account_info : AccountInfo) (account_number statement_number : Option String)
    (opening_balance : Option Dec) : AccountStatement :=
  let final_account_number := orDefault account_number account_info.account_number
  let final_statement_number :=
    orDefault statement_number (generate_statement_number account_info.start_date)
  let ob := match opening_balance with
    | none => calculate_opening_balance transactions
    | some b => b
  let closing_balance := MT940.calculate_closing_balance ob transactions
  { account_number := final_account_number
    statement_number := final_statement_number
    opening_balance := ob
    closing_balance := closing_balance
    transactions := transactions
    currency := "EUR"
    date := some account_info.end_date }

/-- Statement assembly of TransactionProcessor.process_file_to_camt053
(transaction_processor.py:84-104), textually identical to the MT940 path. -/
def process_file_to_camt053_statement (transactions : List Transaction)
    (account_info : AccountInfo) (account_number statement_number : Option String)
    (opening_balance : Option Dec) : AccountStatement :=
  let final_account_number := orDefault account_number account_info.account_number
  let final_statement_number :=
    orDefault statement_number (generate_statement_number account_info.start_date)
  let ob := match opening_balance with
    | none => calculate_opening_balance transactions
    | some b => b
  let closing_balance := MT940.calculate_closing_balance ob transactions
  { account_number := final_account_number
    statement_number := final_statement_number
    opening_balance := ob
    closing_balance := closing_balance
    transactions := transactions
    currency := "EUR"
    date := some account_info.end_date }

end Processor

/-! ### File-level model for the Rabobank parser (C6)

The pandas layer is abstracted: a CsvFile is either a file no candidate
encoding decodes (the retry loop at rabobank_old_parser.py:44-51 falls
through and raises), a file read_csv rejects for another reason, or a
decoded table of columns and rows, where a cell is none for NaN/missing.
Both parse_file and validate_file_format see the same table. -/

/-- Decoded CSV table: column names and rows of optional cells. -/
structure DataFrame where
  columns : List String
  rows : List (List (Option String))
deriving DecidableEq, Repr

/-- A file as the encoding retry loop and read_csv classify it. -/
inductive CsvFile where
  | undecodable
  | unreadable
  | table (df : DataFrame)

/-- Column-name cleaning both entry points apply (rabobank_old_parser.py:54
and :286): replace non-breaking spaces and strip. -/
def clean_columns (df : DataFrame) : DataFrame :=
  { df with columns := df.columns.map (fun c => pyStrip (pyReplace c "\xa0" " ")) }

/-- Index of a column name. -/
def DataFrame.colIdx (df : DataFrame) (col : String) : Option Nat :=
  df.columns.findIdx? (· == col)

/-- Bracket access row[col]: none models the KeyError of a missing column,
otherwise the cell (itself none when NaN). -/
def DataFrame.item (df : DataFrame) (row : List (Option String)) (col : String) :
    Option (Option String) :=
  (df.colIdx col).map (fun i => row.getD i none)

/-- Series.get(col, default): the default when the column is missing,
otherwise the cell. -/
def DataFrame.getCell (df : DataFrame) (row : List (Option String)) (col : String)
    (dflt : Option String) : Option String :=
  match df.item row col with
  | none => dflt
  | some v => v

/-- Python str() of a cell: NaN prints as nan. -/
def pyStr : Option String → String
  | none => "nan"
  | some s => s

/-- Validation outcome dictionary every parser's validate_file_format
returns. -/
structure ValidationResult where
  valid : Bool
  error : Option String := none
  message : Option String := none
  columns_found : List String := []
deriving DecidableEq, Repr

namespace Rabo

/-- Row body of RabobankParser._parse_raw_transactions
(rabobank_old_parser.py:68-127): ok none is a skipped row, error a raised
KeyError; date or amount parse failures skip the row with a warning. -/
def parse_raw_row (df : DataFrame) (row : List (Option String)) :
    Except String (Option RawTransaction) :=
  if (df.getCell row "Omschrijving" (some "")).isNone ∨
     (df.getCell row "Bedrag" (some "")).isNone then Except.ok none
  else
    match df.item row "Datum" with
    | none => Except.error "KeyError: Datum"
    | some datum_cell =>
      match strptimeDMY (pyStrip (pyStr datum_cell)) with
      | none => Except.ok none
      | some date =>
        match df.item row "Bedrag" with
        | none => Except.error "KeyError: Bedrag"
        | some bedrag_cell =>
          match parseDec (pyReplace (pyStr bedrag_cell) "," ".") with
          | none => Except.ok none
          | some amount =>
            match df.item row "Omschrijving" with
            | none => Except.error "KeyError: Omschrijving"
            | some oms_cell =>
              let description := pyStrip (pyStr oms_cell)
              if ignored_keywords.any
                  (fun k => pyContains (pyLower description) (pyLower k)) then
                Except.ok none
              else
                let original_amount := match df.getCell row "Oorspr bedrag" none with
                  | some v =>
                    if pyStrip v ≠ "" then parseDec (pyReplace v "," ".") else none
                  | none => none
                let original_currency := match df.getCell row "Oorspr munt" none with
                  | some v => if pyStrip v ≠ "" then some (pyStrip v) else none
                  | none => none
                let exchange_rate := match df.getCell row "Koers" none with
                  | some v =>
                    if pyStrip v ≠ "" then parseDec (pyReplace v "," ".") else none
                  | none => none
                match df.item row "Transactiereferentie" with
                | none => Except.error "KeyError: Transactiereferentie"
                | some ref_cell =>
                  Except.ok (some
                    { counter_account := "NL92RABO0001234567"
                      reference := pyStrip (pyStr ref_cell)
                      date := date
                      amount := amount
                      description := description
                      original_amount := original_amount
                      original_currency := original_currency
                      exchange_rate := exchange_rate })

/-- The iterrows loop of _parse_raw_transactions: skipped rows contribute
nothing, a raised error aborts. -/
def parse_raw_rows (df : DataFrame) : List (List (Option String)) →
    Except String (List RawTransaction)
  | [] => Except.ok []
  | row :: rest =>
    match parse_raw_row df row with
    | Except.error e => Except.error e
    | Except.ok none => parse_raw_rows df rest
    | Except.ok (some rt) =>
      match parse_raw_rows df rest with
      | Except.error e => Except.error e
      | Except.ok rts => Except.ok (rt :: rts)

/-- RabobankParser.parse_file (rabobank_old_parser.py:41-62): decode, clean
the column names, build raw transactions, apply the business rules. -/
def parse_file : CsvFile → Except String (List Transaction)
  | CsvFile.undecodable =>
    Except.error "Could not decode CSV file with any supported encoding"
  | CsvFile.unreadable => Except.error "read_csv error"
  | CsvFile.table df0 =>
    let df := clean_columns df0
    match parse_raw_rows df df.rows with
    | Except.error e => Except.error e
    | Except.ok raws => Except.ok (apply_business_rules raws)

/-- Required column set of rabobank_old_parser.py:289-295. -/
def required_columns : List String :=
  ["Tegenrekening IBAN", "Transactiereferentie", "Datum", "Bedrag", "Omschrijving"]

/-- Per-row format checks of the head-of-file loop
(rabobank_old_parser.py:317-328); the column accesses cannot fail because
the required columns were checked first, and the produced messages stand in
for the source's interpolated ones. -/
def validate_row_errors (df : DataFrame) (row : List (Option String)) : List String :=
  (if (strptimeDMY (pyStr (df.getCell row "Datum" none))).isNone then
    ["Invalid date format"] else []) ++
  (if (parseDec (pyReplace (pyStr (df.getCell row "Bedrag" none)) "," ".")).isNone then
    ["Invalid amount format"] else [])

/-- RabobankParser.validate_file_format (rabobank_old_parser.py:266-349):
never raises; checks decodability, required columns, non-emptiness and the
first five rows, and reports valid only when all pass. -/
def validate_file_format : CsvFile → ValidationResult
  | CsvFile.undecodable =>
    { valid := false
      error := some "Could not decode CSV file with any supported encoding" }
  | CsvFile.unreadable =>
    { valid := false, error := some "Error reading Rabobank CSV file" }
  | CsvFile.table df0 =>
    let df := clean_columns df0
    let missing := required_columns.filter (fun c => !(df.columns.contains c))
    if missing ≠ [] then
      { valid := false
        error := some ("Missing required columns: " ++ String.intercalate ", " missing)
        columns_found := df.columns }
    else if df.rows.length = 0 then
      { valid := false, error := some "CSV file is empty", columns_found := df.columns }
    else
      let validation_errors := (df.rows.take 5).flatMap (validate_row_errors df)
      if validation_errors ≠ [] then
        { valid := false
          error := some ("Format validation errors: " ++
            String.intercalate "; " validation_errors)
          columns_found := df.columns }
      else
        { valid := true, message := some "Rabobank CSV file is valid"
          columns_found := df.columns }

end Rabo

/-! ### File-level model for the ICS parser (C6)

Same abstraction as the Rabobank file model: the decoded table is shared
by parse_file and validate_file_format; bracket column accesses raise
KeyError when the column is absent, Series.get accesses fall back to a
default. -/

namespace Ics

/-- Column-name cleaning of the ICS entry points (ics_parser.py:57, :218
and :268): remove byte-order marks, replace non-breaking spaces, strip. -/
def clean_columns (df : DataFrame) : DataFrame :=
  { df with columns :=
      df.columns.map (fun c => pyStrip (pyReplace (pyReplace c "\uFEFF" "") "\xa0" " ")) }

/-- Amount normalisation of ics_parser.py:92-99: with both comma and dot
the dot is a thousands separator, with only a comma the comma is the
decimal point. -/
def normalize_amount (s : String) : String :=
  if pyContains s "," ∧ pyContains s "." then pyReplace (pyReplace s "." "") "," "."
  else if pyContains s "," then pyReplace s "," "."
  else s

/-- Row body of IcsParser._parse_raw_transactions (ics_parser.py:71-137):
ok none is a skipped row, error a raised KeyError.  The booking-date
bracket access at line 85 sits outside the try, whose except clause only
catches the ValueError of strptime (falling back to the transaction date),
so a missing Boekingsdatum column raises. -/
def parse_raw_row (df : DataFrame) (row : List (Option String)) :
    Except String (Option RawTransaction) :=
  if (df.getCell row "Omschrijving" (some "")).isNone ∨
     (df.getCell row "Bedrag" (some "")).isNone then Except.ok none
  else
    match df.item row "Transactiedatum" with
    | none => Except.error "KeyError: Transactiedatum"
    | some td_cell =>
      match strptimeDMY (pyStrip (pyStr td_cell)) with
      | none => Except.ok none
      | some transaction_date =>
        match df.item row "Boekingsdatum" with
        | none => Except.error "KeyError: Boekingsdatum"
        | some bd_cell =>
          let booking_date :=
            (strptimeDMY (pyStrip (pyStr bd_cell))).getD transaction_date
          match df.item row "Bedrag" with
          | none => Except.error "KeyError: Bedrag"
          | some bedrag_cell =>
            match parseDec (normalize_amount (pyStrip (pyStr bedrag_cell))) with
            | none => Except.ok none
            | some amount =>
              match df.item row "Omschrijving" with
              | none => Except.error "KeyError: Omschrijving"
              | some oms_cell =>
                let description := pyStrip (pyStr oms_cell)
                let debit_credit :=
                  pyUpper (pyStrip (pyStr (df.getCell row "Debit/Credit" (some ""))))
                let original_amount :=
                  match df.getCell row "Bedrag in oorspronkelijke valuta" none with
                  | some v =>
                    if pyStrip v ≠ "" then parseDec (pyReplace v "," ".") else none
                  | none => none
                Except.ok (some
                  { transaction_date := transaction_date
                    booking_date := booking_date
                    description := description
                    cardholder_name :=
                      pyStrip (pyStr (df.getCell row "Naam Card-houder" (some "")))
                    card_number :=
                      pyStrip (pyStr (df.getCell row "Card nummer" (some "")))
                    debit_credit := debit_credit
                    amount := amount
                    merchant_category :=
                      match df.getCell row "Merchant categorie" none with
                      | some v => some (pyStrip v)
                      | none => none
                    country :=
                      match df.getCell row "Land" none with
                      | some v => some (pyStrip v)
                      | none => none
                    currency := pyStrip (pyStr (df.getCell row "Valuta" (some "EUR")))
                    original_amount := original_amount
                    transaction_type :=
                      match df.getCell row "Type transactie" none with
                      | some v => some (pyStrip v)
                      | none => none
                    wallet_provider :=
                      match df.getCell row "WalletProvider" none with
                      | some v => if pyStrip v ≠ "null" then some (pyStrip v) else none
                      | none => none })

/-- The iterrows loop of IcsParser._parse_raw_transactions. -/
def parse_raw_rows (df : DataFrame) : List (List (Option String)) →
    Except String (List RawTransaction)
  | [] => Except.ok []
  | row :: rest =>
    match parse_raw_row df row with
    | Except.error e => Except.error e
    | Except.ok none => parse_raw_rows df rest
    | Except.ok (some rt) =>
      match parse_raw_rows df rest with
      | Except.error e => Except.error e
      | Except.ok rts => Except.ok (rt :: rts)

/-- IcsParser.parse_file (ics_parser.py:44-65): decode, clean the column
names, build raw transactions, apply the ICS business rules. -/
def parse_file : CsvFile → Except String (List Transaction)
  | CsvFile.undecodable =>
    Except.error "Could not decode CSV file with any supported encoding"
  | CsvFile.unreadable => Except.error "read_csv error"
  | CsvFile.table df0 =>
    let df := clean_columns df0
    match parse_raw_rows df df.rows with
    | Except.error e => Except.error e
    | Except.ok raws => Except.ok (apply_business_rules raws)

/-- Required column set of ics_parser.py:271-276.  Boekingsdatum is
absent, although parse_file bracket-accesses it. -/
def required_columns : List String :=
  ["Transactiedatum", "Omschrijving", "Debit/Credit", "Bedrag"]

/-- Per-row format checks of the head-of-file loop (ics_parser.py:298-314):
date, amount and debit/credit indicator; the produced messages stand in for
the source's interpolated ones. -/
def validate_row_errors (df : DataFrame) (row : List (Option String)) : List String :=
  (if (strptimeDMY (pyStr (df.getCell row "Transactiedatum" none))).isNone then
    ["Invalid date format"] else []) ++
  (if (parseDec (pyReplace (pyStr (df.getCell row "Bedrag" none)) "," ".")).isNone then
    ["Invalid amount format"] else []) ++
  (if pyUpper (pyStrip (pyStr (df.getCell row "Debit/Credit" (some "")))) = "D" ∨
      pyUpper (pyStrip (pyStr (df.getCell row "Debit/Credit" (some "")))) = "C" then
    [] else ["Invalid Debit/Credit indicator"])

/-- IcsParser.validate_file_format (ics_parser.py:248-335): never raises;
checks decodability, the required columns, non-emptiness and the first five
rows, and reports valid only when all pass. -/
def validate_file_format : CsvFile → ValidationResult
  | CsvFile.undecodable =>
    { valid := false
      error := some "Could not decode CSV file with any supported encoding" }
  | CsvFile.unreadable =>
    { valid := false, error := some "Error reading ICS CSV file" }
  | CsvFile.table df0 =>
    let df := clean_columns df0
    let missing := required_columns.filter (fun c => !(df.columns.contains c))
    if missing ≠ [] then
      { valid := false
        error := some ("Missing required columns: " ++ String.intercalate ", " missing)
        columns_found := df.columns }
    else if df.rows.length = 0 then
      { valid := false, error := some "CSV file is empty", columns_found := df.columns }
    else
      let validation_errors := (df.rows.take 5).flatMap (validate_row_errors df)
      if validation_errors ≠ [] then
        { valid := false
          error := some ("Format validation errors: " ++
            String.intercalate "; " validation_errors)
          columns_found := df.columns }
      else
        { valid := true, message := some "ICS CSV file is valid"
          columns_found := df.columns }

end Ics

/-- Balance line as the specification words it: colon, field code, colon,
credit/debit flag by the sign of the amount, two-digit-year date, currency,
then the absolute amount as an integer part zero-padded to width nine, a
comma, and exactly two fractional digits.  cents is the absolute amount in
hundredths.  Stated from the spec for comparison with
MT940.format_balance, which mirrors the source. -/
def spec_balance_line (field_code : String) (amount : Dec) (currency : String)
    (date : Date) : String :=
  let cents := (amount.dabs.alignedNum 2).natAbs
  ":" ++ field_code ++ ":" ++ (if 0 ≤ amount.toRat then "C" else "D") ++
    fmtYYMMDD date ++ currency ++
    String.mk (padLeftChar '0' 9 (natToChars (cents / 100)) ++ [','] ++
      padLeftChar '0' 2 (natToChars (cents % 100)))

/-! ### Bridge lemmas from the Decimal model to rational arithmetic -/

theorem Dec.toRat_alignedNum (a : Dec) (e : Nat) (h : a.exp ≤ e) :
    ((a.alignedNum e : Int) : ℚ) = a.toRat * (10 : ℚ) ^ e := by
  unfold Dec.alignedNum Dec.toRat
  have h10 : ((10 : ℚ) ^ a.exp) ≠ 0 := by positivity
  have hsplit : (10 : ℚ) ^ e = (10 : ℚ) ^ a.exp * (10 : ℚ) ^ (e - a.exp) := by
    rw [← pow_add, Nat.add_sub_cancel' h]
  push_cast
  rw [hsplit]
  field_simp
  ring

theorem Dec.toRat_add (a b : Dec) : (a.add b).toRat = a.toRat + b.toRat := by
  have he1 : a.exp ≤ max a.exp b.exp := Nat.le_max_left _ _
  have he2 : b.exp ≤ max a.exp b.exp := Nat.le_max_right _ _
  have h10 : ((10 : ℚ) ^ max a.exp b.exp) ≠ 0 := by positivity
  have h1 := Dec.toRat_alignedNum a (max a.exp b.exp) he1
  have h2 := Dec.toRat_alignedNum b (max a.exp b.exp) he2
  simp only [Dec.add, Dec.toRat]
  rw [Int.cast_add, h1, h2, ← add_mul, mul_div_assoc, div_self h10, mul_one]
  rfl

theorem Dec.toRat_neg (a : Dec) : a.neg.toRat = -a.toRat := by
  unfold Dec.neg Dec.toRat
  push_cast
  ring

theorem Dec.toRat_dabs (a : Dec) : a.dabs.toRat = |a.toRat| := by
  unfold Dec.dabs Dec.toRat
  rw [abs_div]
  have : |(10 : ℚ) ^ a.exp| = (10 : ℚ) ^ a.exp := abs_of_pos (by positivity)
  rw [this]
  push_cast
  ring

theorem Dec.toRat_ofInt (n : Int) : (Dec.ofInt n).toRat = (n : ℚ) := by
  unfold Dec.ofInt Dec.toRat
  norm_num

theorem Dec.ble_iff (a b : Dec) : Dec.ble a b = true ↔ a.toRat ≤ b.toRat := by
  unfold Dec.ble
  have he1 : a.exp ≤ max a.exp b.exp := Nat.le_max_left _ _
  have he2 : b.exp ≤ max a.exp b.exp := Nat.le_max_right _ _
  have h1 := Dec.toRat_alignedNum a (max a.exp b.exp) he1
  have h2 := Dec.toRat_alignedNum b (max a.exp b.exp) he2
  have h10 : (0 : ℚ) < (10 : ℚ) ^ max a.exp b.exp := by positivity
  constructor
  · intro h
    have hle : ((a.alignedNum (max a.exp b.exp) : Int) : ℚ) ≤
        ((b.alignedNum (max a.exp b.exp) : Int) : ℚ) := by
      exact_mod_cast of_decide_eq_true h
    rw [h1, h2] at hle
    exact le_of_mul_le_mul_right hle h10
  · intro h
    have hle : ((a.alignedNum (max a.exp b.exp) : Int) : ℚ) ≤
        ((b.alignedNum (max a.exp b.exp) : Int) : ℚ) := by
      rw [h1, h2]
      exact mul_le_mul_of_nonneg_right h (le_of_lt h10)
    exact decide_eq_true (by exact_mod_cast hle)

theorem Dec.blt_iff (a b : Dec) : Dec.blt a b = true ↔ a.toRat < b.toRat := by
  unfold Dec.blt
  have he1 : a.exp ≤ max a.exp b.exp := Nat.le_max_left _ _
  have he2 : b.exp ≤ max a.exp b.exp := Nat.le_max_right _ _
  have h1 := Dec.toRat_alignedNum a (max a.exp b.exp) he1
  have h2 := Dec.toRat_alignedNum b (max a.exp b.exp) he2
  have h10 : (0 : ℚ) < (10 : ℚ) ^ max a.exp b.exp := by positivity
  constructor
  · intro h
    have hlt : ((a.alignedNum (max a.exp b.exp) : Int) : ℚ) <
        ((b.alignedNum (max a.exp b.exp) : Int) : ℚ) := by
      exact_mod_cast of_decide_eq_true h
    rw [h1, h2] at hlt
    exact lt_of_mul_lt_mul_right hlt (le_of_lt h10)
  · intro h
    have hlt : ((a.alignedNum (max a.exp b.exp) : Int) : ℚ) <
        ((b.alignedNum (max a.exp b.exp) : Int) : ℚ) := by
      rw [h1, h2]
      exact mul_lt_mul_of_pos_right h h10
    exact decide_eq_true (by exact_mod_cast hlt)

/-! ### Digit-string and split/replace shape lemmas -/

theorem natToCharsAux_mem_digit {fuel n : Nat} {c : Char}
    (h : c ∈ natToCharsAux fuel n) : ∃ d, d < 10 ∧ c = digitChar d := by
  induction fuel generalizing n with
  | zero => simp [natToCharsAux] at h
  | succ fuel ih =>
    unfold natToCharsAux at h
    by_cases hn : n < 10
    · simp [hn] at h
      exact ⟨n, hn, h⟩
    · simp [hn] at h
      rcases h with h | h
      · exact ih h
      · exact ⟨n % 10, Nat.mod_lt _ (by norm_num), h⟩

theorem natToChars_mem_digit {n : Nat} {c : Char} (h : c ∈ natToChars n) :
    ∃ d, d < 10 ∧ c = digitChar d := natToCharsAux_mem_digit h

theorem digitChar_ne_dot {d : Nat} (h : d < 10) : digitChar d ≠ '.' := by
  interval_cases d <;> decide

theorem digitChar_ne_comma {d : Nat} (h : d < 10) : digitChar d ≠ ',' := by
  interval_cases d <;> decide

theorem natToChars_not_dot {n : Nat} {c : Char} (h : c ∈ natToChars n) : c ≠ '.' := by
  obtain ⟨d, hd, rfl⟩ := natToChars_mem_digit h
  exact digitChar_ne_dot hd

theorem natToChars_not_comma {n : Nat} {c : Char} (h : c ∈ natToChars n) : c ≠ ',' := by
  obtain ⟨d, hd, rfl⟩ := natToChars_mem_digit h
  exact digitChar_ne_comma hd

theorem padLeftChar_zero_mem {width : Nat} {l : List Char} {c : Char}
    (h : c ∈ padLeftChar '0' width l) : c = '0' ∨ c ∈ l := by
  unfold padLeftChar at h
  rcases List.mem_append.mp h with h | h
  · exact Or.inl (List.eq_of_mem_replicate h)
  · exact Or.inr h

theorem replaceChar_eq_of_not_mem {old new : Char} {l : List Char}
    (h : ∀ c ∈ l, c ≠ old) : replaceChar old new l = l := by
  unfold replaceChar
  induction l with
  | nil => rfl
  | cons c rest ih =>
    simp only [List.map_cons]
    rw [if_neg (h c (List.mem_cons_self c rest)), ih (fun x hx => h x (List.mem_cons_of_mem c hx))]

theorem splitOnChar_cons (sep c : Char) (rest : List Char) :
    splitOnChar sep (c :: rest) =
      match splitOnChar sep rest with
      | [] => [[]]
      | part :: parts =>
        if c = sep then [] :: part :: parts else (c :: part) :: parts := rfl

theorem splitOnChar_ne_nil (sep : Char) (l : List Char) : splitOnChar sep l ≠ [] := by
  cases l with
  | nil => simp [splitOnChar]
  | cons c rest =>
    rw [splitOnChar_cons]
    cases splitOnChar sep rest with
    | nil => simp
    | cons part parts =>
      by_cases hc : c = sep <;> simp [hc]

theorem splitOnChar_of_not_mem {sep : Char} {l : List Char} (h : ∀ c ∈ l, c ≠ sep) :
    splitOnChar sep l = [l] := by
  induction l with
  | nil => rfl
  | cons c rest ih =>
    rw [splitOnChar_cons, ih (fun x hx => h x (List.mem_cons_of_mem c hx))]
    simp [h c (List.mem_cons_self c rest)]

theorem splitOnChar_append_sep {sep : Char} {l r : List Char} (h : ∀ c ∈ l, c ≠ sep) :
    splitOnChar sep (l ++ sep :: r) = l :: splitOnChar sep r := by
  induction l with
  | nil =>
    simp only [List.nil_append]
    rw [splitOnChar_cons]
    cases hr : splitOnChar sep r with
    | nil => exact absurd hr (splitOnChar_ne_nil sep r)
    | cons part parts => simp
  | cons c rest ih =>
    simp only [List.cons_append]
    rw [splitOnChar_cons, ih (fun x hx => h x (List.mem_cons_of_mem c hx))]
    simp [h c (List.mem_cons_self c rest)]

theorem natToChars_length_le_two {n : Nat} (h : n < 100) : (natToChars n).length ≤ 2 := by
  unfold natToChars natToCharsAux
  by_cases h10 : n < 10
  · simp [h10]
  · simp only [h10, if_false]
    have hq : n / 10 < 10 := by omega
    have hfuel : ∃ fuel, n = fuel + 1 := ⟨n - 1, by omega⟩
    obtain ⟨fuel, rfl⟩ := hfuel
    unfold natToCharsAux
    by_cases hz : fuel + 1 = 0
    · omega
    · simp [hq]

theorem padLeftChar_length {fill : Char} {width : Nat} {l : List Char}
    (h : l.length ≤ width) : (padLeftChar fill width l).length = width := by
  unfold padLeftChar
  simp
  omega

/-- Folded Decimal sum of a transaction list, in rational value: the Python
sum loop is exact. -/
theorem foldl_add_amount_toRat (l : List Transaction) (acc : Dec) :
    (l.foldl (fun a t => a.add t.amount) acc).toRat =
      acc.toRat + (l.map (fun t => t.amount.toRat)).sum := by
  induction l generalizing acc with
  | nil => simp
  | cons t rest ih =>
    simp only [List.foldl_cons, List.map_cons, List.sum_cons]
    rw [ih, Dec.toRat_add]
    ring

/-! ### Shape of the formatted balance amount -/

theorem replaceChar_append_single {old new : Char} {A B : List Char}
    (hA : ∀ c ∈ A, c ≠ old) (hB : ∀ c ∈ B, c ≠ old) :
    replaceChar old new (A ++ old :: B) = A ++ new :: B := by
  have hmA : replaceChar old new A = A := replaceChar_eq_of_not_mem hA
  have hmB : replaceChar old new B = B := replaceChar_eq_of_not_mem hB
  unfold replaceChar at *
  rw [List.map_append, List.map_cons, hmA, hmB, if_pos rfl]

theorem decFixed2_nonneg_shape (b : Dec) (hexp : b.exp ≤ 2) (hnum : 0 ≤ b.num) :
    decFixed2 b =
      natToChars ((b.alignedNum 2).natAbs / 100) ++ '.' ::
        padLeftChar '0' 2 (natToChars ((b.alignedNum 2).natAbs % 100)) := by
  have hcents : b.cents2 = b.alignedNum 2 := by
    simp [Dec.cents2, hexp, Dec.alignedNum]
  have hnn : 0 ≤ b.cents2 := by
    rw [hcents]
    unfold Dec.alignedNum
    positivity
  unfold decFixed2
  rw [hcents] at hnn ⊢
  simp [not_lt.mpr hnn]

theorem format_balance_eq_spec (field_code : String) (amount : Dec)
    (currency : String) (date : Date) (hexp : amount.exp ≤ 2) :
    MT940.format_balance field_code amount currency date =
      spec_balance_line field_code amount currency date := by
  have hdabs_exp : amount.dabs.exp ≤ 2 := hexp
  have hdabs_num : 0 ≤ amount.dabs.num := abs_nonneg _
  have hshape := decFixed2_nonneg_shape amount.dabs hdabs_exp hdabs_num
  set cents := (amount.dabs.alignedNum 2).natAbs with hc
  set A := natToChars (cents / 100) with hA
  set B := padLeftChar '0' 2 (natToChars (cents % 100)) with hB
  have hAdot : ∀ c ∈ A, c ≠ '.' := fun c hc => natToChars_not_dot hc
  have hAcomma : ∀ c ∈ A, c ≠ ',' := fun c hc => natToChars_not_comma hc
  have hBmem : ∀ c ∈ B, c = '0' ∨ c ∈ natToChars (cents % 100) := by
    intro c hc
    exact padLeftChar_zero_mem hc
  have hBdot : ∀ c ∈ B, c ≠ '.' := by
    intro c hc
    rcases hBmem c hc with h | h
    · subst h; decide
    · exact natToChars_not_dot h
  have hBcomma : ∀ c ∈ B, c ≠ ',' := by
    intro c hc
    rcases hBmem c hc with h | h
    · subst h; decide
    · exact natToChars_not_comma h
  have hBlen : B.length = 2 := by
    rw [hB]
    exact padLeftChar_length (natToChars_length_le_two (Nat.mod_lt _ (by norm_num)))
  have hflag : (if Dec.ble (Dec.ofInt 0) amount then "C" else "D") =
      (if 0 ≤ amount.toRat then "C" else "D") := by
    by_cases h : 0 ≤ amount.toRat
    · rw [if_pos h, if_pos]
      rw [Dec.ble_iff, Dec.toRat_ofInt]
      exact_mod_cast h
    · rw [if_neg h, if_neg]
      rw [Dec.ble_iff, Dec.toRat_ofInt]
      exact_mod_cast h
  have hpadB : padRightChar '0' 2 B = B := by
    unfold padRightChar
    rw [hBlen]
    simp
  simp only [MT940.format_balance, spec_balance_line]
  rw [hshape, replaceChar_append_single hAdot hBdot,
    splitOnChar_append_sep hAcomma, splitOnChar_of_not_mem hBcomma]
  simp only [List.headD, List.drop, hflag, hpadB]

theorem spec_balance_cents (amount : Dec) (hexp : amount.exp ≤ 2) :
    (((amount.dabs.alignedNum 2).natAbs : ℚ)) = |amount.toRat| * 100 := by
  have hnn : 0 ≤ amount.dabs.alignedNum 2 := by
    unfold Dec.alignedNum Dec.dabs
    positivity
  have halign := Dec.toRat_alignedNum amount.dabs 2 hexp
  rw [Dec.toRat_dabs] at halign
  rw [Int.cast_natAbs, Int.cast_abs, halign, abs_of_nonneg (by positivity)]
  norm_num

/-! ### Origin of emitted transactions (no standalone surcharge rows) -/

theorem csvp_output_from_non_surcharge (l : List CsvP.RawTransaction) (t : Transaction)
    (h : t ∈ CsvP.apply_business_rules l) :
    ∃ r, r ∈ l ∧ CsvP.is_exchange_rate_surcharge r = false ∧
      t.reference = some r.reference ∧ t.date = r.date := by
  induction l using CsvP.apply_business_rules.induct with
  | case1 => simp [CsvP.apply_business_rules] at h
  | case2 cur hs => simp [CsvP.apply_business_rules, hs] at h
  | case3 cur hns hset =>
    simp [CsvP.apply_business_rules, hns, hset] at h
    subst h
    exact ⟨cur, by simp, by simpa using hns,
      by simp [CsvP.settlement_transaction], by simp [CsvP.settlement_transaction]⟩
  | case4 cur hns hnset =>
    simp [CsvP.apply_business_rules, hns, hnset] at h
    subst h
    exact ⟨cur, by simp, by simpa using hns, by simp, by simp⟩
  | case5 cur nxt rest hs ih =>
    simp only [CsvP.apply_business_rules, if_pos hs] at h
    obtain ⟨r, hr, hp⟩ := ih h
    exact ⟨r, List.mem_cons_of_mem _ hr, hp⟩
  | case6 cur nxt rest hns hset ih =>
    simp [CsvP.apply_business_rules, hns, hset] at h
    rcases h with h | h
    · subst h
      exact ⟨cur, by simp, by simpa using hns,
        by simp [CsvP.settlement_transaction], by simp [CsvP.settlement_transaction]⟩
    · obtain ⟨r, hr, hp⟩ := ih h
      exact ⟨r, List.mem_cons_of_mem _ hr, hp⟩
  | case7 cur nxt rest hns hnset hcond ih =>
    simp [CsvP.apply_business_rules, hns, hnset, hcond.1, hcond.2] at h
    rcases h with h | h
    · subst h
      exact ⟨cur, by simp, by simpa using hns, by simp, by simp⟩
    · obtain ⟨r, hr, hp⟩ := ih h
      exact ⟨r, List.mem_cons_of_mem _ (List.mem_cons_of_mem _ hr), hp⟩
  | case8 cur nxt rest hns hnset hncond ih =>
    simp [CsvP.apply_business_rules, hns, hnset, hncond] at h
    rcases h with h | h
    · subst h
      exact ⟨cur, by simp, by simpa using hns, by simp, by simp⟩
    · obtain ⟨r, hr, hp⟩ := ih h
      exact ⟨r, List.mem_cons_of_mem _ hr, hp⟩

theorem rabo_output_from_non_surcharge (l : List Rabo.RawTransaction) (t : Transaction)
    (h : t ∈ Rabo.apply_business_rules l) :
    ∃ r, r ∈ l ∧ Rabo.is_exchange_rate_surcharge r = false ∧
      t.reference = some r.reference ∧ t.date = r.date := by
  induction l using Rabo.apply_business_rules.induct with
  | case1 => simp [Rabo.apply_business_rules] at h
  | case2 cur hs => simp [Rabo.apply_business_rules, hs] at h
  | case3 cur hns hset =>
    simp [Rabo.apply_business_rules, hns, hset] at h
    subst h
    exact ⟨cur, by simp, by simpa using hns,
      by simp [Rabo.settlement_transaction], by simp [Rabo.settlement_transaction]⟩
  | case4 cur hns hnset =>
    simp [Rabo.apply_business_rules, hns, hnset] at h
    subst h
    exact ⟨cur, by simp, by simpa using hns, by simp, by simp⟩
  | case5 cur nxt rest hs ih =>
    simp only [Rabo.apply_business_rules, if_pos hs] at h
    obtain ⟨r, hr, hp⟩ := ih h
    exact ⟨r, List.mem_cons_of_mem _ hr, hp⟩
  | case6 cur nxt rest hns hset ih =>
    simp [Rabo.apply_business_rules, hns, hset] at h
    rcases h with h | h
    · subst h
      exact ⟨cur, by simp, by simpa using hns,
        by simp [Rabo.settlement_transaction], by simp [Rabo.settlement_transaction]⟩
    · obtain ⟨r, hr, hp⟩ := ih h
      exact ⟨r, List.mem_cons_of_mem _ hr, hp⟩
  | case7 cur nxt rest hns hnset hcond ih =>
    simp [Rabo.apply_business_rules, hns, hnset, hcond.1, hcond.2] at h
    rcases h with h | h
    · subst h
      exact ⟨cur, by simp, by simpa using hns, by simp, by simp⟩
    · obtain ⟨r, hr, hp⟩ := ih h
      exact ⟨r, List.mem_cons_of_mem _ (List.mem_cons_of_mem _ hr), hp⟩
  | case8 cur nxt rest hns hnset hncond ih =>
    simp [Rabo.apply_business_rules, hns, hnset, hncond] at h
    rcases h with h | h
    · subst h
      exact ⟨cur, by simp, by simpa using hns, by simp, by simp⟩
    · obtain ⟨r, hr, hp⟩ := ih h
      exact ⟨r, List.mem_cons_of_mem _ hr, hp⟩

/-! ### Validation implies parse success (Rabobank parser) -/

theorem findIdx_isSome_of_contains (l : List String) (c : String)
    (h : l.contains c = true) : (l.findIdx? (· == c)).isSome = true := by
  induction l with
  | nil => simp at h
  | cons a rest ih =>
    rw [List.findIdx?_cons]
    by_cases ha : a == c
    · simp [ha]
    · simp only [ha, if_false]
      simp only [List.contains_cons, Bool.or_eq_true] at h
      rcases h with h | h
      · have : c = a := eq_of_beq h
        subst this
        simp at ha
      · simp [ih h]

theorem item_isSome_of_contains (df : DataFrame) (row : List (Option String))
    (col : String) (h : df.columns.contains col = true) :
    (df.item row col).isSome = true := by
  unfold DataFrame.item DataFrame.colIdx
  have := findIdx_isSome_of_contains df.columns col h
  rcases hopt : df.columns.findIdx? (· == col) with - | i
  · rw [hopt] at this
    simp at this
  · simp

theorem parse_raw_row_ok (df : DataFrame) (row : List (Option String))
    (hD : df.columns.contains "Datum" = true)
    (hB : df.columns.contains "Bedrag" = true)
    (hO : df.columns.contains "Omschrijving" = true)
    (hR : df.columns.contains "Transactiereferentie" = true) :
    ∃ v, Rabo.parse_raw_row df row = Except.ok v := by
  obtain ⟨cD, hcD⟩ := Option.isSome_iff_exists.mp (item_isSome_of_contains df row _ hD)
  obtain ⟨cB, hcB⟩ := Option.isSome_iff_exists.mp (item_isSome_of_contains df row _ hB)
  obtain ⟨cO, hcO⟩ := Option.isSome_iff_exists.mp (item_isSome_of_contains df row _ hO)
  obtain ⟨cR, hcR⟩ := Option.isSome_iff_exists.mp (item_isSome_of_contains df row _ hR)
  unfold Rabo.parse_raw_row
  simp only [hcD, hcB, hcO, hcR]
  split
  · exact ⟨none, rfl⟩
  · split
    · exact ⟨none, rfl⟩
    · split
      · exact ⟨none, rfl⟩
      · split
        · exact ⟨none, rfl⟩
        · exact ⟨_, rfl⟩

theorem parse_raw_rows_ok (df : DataFrame)
    (hD : df.columns.contains "Datum" = true)
    (hB : df.columns.contains "Bedrag" = true)
    (hO : df.columns.contains "Omschrijving" = true)
    (hR : df.columns.contains "Transactiereferentie" = true) :
    ∀ rows, ∃ v, Rabo.parse_raw_rows df rows = Except.ok v := by
  intro rows
  induction rows with
  | nil => exact ⟨[], rfl⟩
  | cons row rest ih =>
    obtain ⟨v, hv⟩ := parse_raw_row_ok df row hD hB hO hR
    obtain ⟨vs, hvs⟩ := ih
    unfold Rabo.parse_raw_rows
    rw [hv]
    cases v with
    | none => exact ⟨vs, hvs⟩
    | some rt =>
      rw [hvs]
      exact ⟨rt :: vs, rfl⟩

/-! ### Claim theorems -/

/-- C1: the closing balance the formatter computes (and that both
processor paths store) is exactly the opening balance plus the rational
sum of all transaction amounts, with no rounding anywhere; on opening 0.00
and amounts -19.69, +912.40, -108.00 it is exactly 784.71. -/
theorem closing_balance_is_exact_sum :
    (∀ (opening_balance : Dec) (transactions : List Transaction),
      (MT940.calculate_closing_balance opening_balance transactions).toRat =
        opening_balance.toRat + (transactions.map (fun t => t.amount.toRat)).sum) ∧
    (∀ (transactions : List Transaction) (info : Processor.AccountInfo)
        (an sn : Option String) (ob : Option Dec),
      (Processor.process_file_to_mt940_statement transactions info an sn ob).closing_balance =
        MT940.calculate_closing_balance
          (Processor.process_file_to_mt940_statement transactions info an sn ob).opening_balance
          transactions ∧
      (Processor.process_file_to_camt053_statement transactions info an sn ob).closing_balance =
        MT940.calculate_closing_balance
          (Processor.process_file_to_camt053_statement transactions info an sn ob).opening_balance
          transactions) ∧
    MT940.calculate_closing_balance ⟨0, 2⟩
      [{ date := ⟨2025, 3, 1⟩, amount := ⟨-1969, 2⟩,
         description := "GTRANSLATE.COM (incl. exchange rate surcharge)" },
       { date := ⟨2025, 3, 2⟩, amount := ⟨91240, 2⟩, description := "Payment received" },
       { date := ⟨2025, 3, 27⟩, amount := ⟨-10800, 2⟩, description := "COOKIEBOT" }] =
      ⟨78471, 2⟩ := by
  refine ⟨?_, ?_, by decide⟩
  · intro ob txs
    simp only [MT940.calculate_closing_balance]
    rw [Dec.toRat_add, foldl_add_amount_toRat]
    simp [Dec.toRat, Dec.ofInt]
  · intro txs info an sn ob
    exact ⟨rfl, rfl⟩

/-- C5: no surcharge-keyword row of the legacy-CSV or Rabobank pass is
ever emitted as a standalone Transaction: every emitted Transaction carries
the reference and date of some non-surcharge input row. -/
theorem surcharge_rows_never_emitted_standalone :
    (∀ (l : List CsvP.RawTransaction) (t : Transaction),
      t ∈ CsvP.apply_business_rules l →
      ∃ r, r ∈ l ∧ CsvP.is_exchange_rate_surcharge r = false ∧
        t.reference = some r.reference ∧ t.date = r.date) ∧
    (∀ (l : List Rabo.RawTransaction) (t : Transaction),
      t ∈ Rabo.apply_business_rules l →
      ∃ r, r ∈ l ∧ Rabo.is_exchange_rate_surcharge r = false ∧
        t.reference = some r.reference ∧ t.date = r.date) :=
  ⟨fun l t h => csvp_output_from_non_surcharge l t h,
   fun l t h => rabo_output_from_non_surcharge l t h⟩

/-- Witness for C5 at a concrete two-row file whose second row is an
unrelated surcharge row (different date), so it is dropped and the single
output comes from the first, non-surcharge row. -/
theorem surcharge_rows_never_emitted_standalone_witness :
    ∃ r, r ∈ [({ counter_account := "NL54RABO0310737710", reference := "8",
                 date := ⟨2025, 3, 1⟩, amount := ⟨-1930, 2⟩,
                 description := "GTRANSLATE.COM" } : CsvP.RawTransaction),
              { counter_account := "NL54RABO0310737710", reference := "9",
                date := ⟨2025, 3, 2⟩, amount := ⟨-39, 2⟩,
                description := "Koersopslag" }] ∧
      CsvP.is_exchange_rate_surcharge r = false ∧
      (({ date := ⟨2025, 3, 1⟩, amount := ⟨-1930, 2⟩,
          description := "GTRANSLATE.COM",
          counter_account := some "NL54RABO0310737710",
          reference := some "8" } : Transaction)).reference = some r.reference ∧
      (({ date := ⟨2025, 3, 1⟩, amount := ⟨-1930, 2⟩,
          description := "GTRANSLATE.COM",
          counter_account := some "NL54RABO0310737710",
          reference := some "8" } : Transaction)).date = r.date :=
  surcharge_rows_never_emitted_standalone.1 _ _ (by decide)

/-- Supporting result for C6: for the Rabobank legacy parser the claimed
agreement does hold — whenever the modelled validate_file_format reports
valid, the modelled parse_file on the same file succeeds (validation
itself is a total function in the model, mirroring the catch-all in the
source). -/
theorem validate_format_implies_parse_ok (f : CsvFile)
    (h : (Rabo.validate_file_format f).valid = true) :
    ∃ v, Rabo.parse_file f = Except.ok v := by
  cases f with
  | undecodable => simp [Rabo.validate_file_format] at h
  | unreadable => simp [Rabo.validate_file_format] at h
  | table df0 =>
    unfold Rabo.validate_file_format at h
    unfold Rabo.parse_file
    dsimp only at h ⊢
    split at h
    next => simp at h
    next hmiss =>
      split at h
      next => simp at h
      next =>
        split at h
        next => simp at h
        next =>
          rw [not_ne_iff] at hmiss
          have hall : ∀ c ∈ Rabo.required_columns,
              (clean_columns df0).columns.contains c = true := by
            intro c hc
            by_contra hnc
            have hmem : c ∈ Rabo.required_columns.filter
                (fun c => !((clean_columns df0).columns.contains c)) :=
              List.mem_filter.mpr ⟨hc, by simpa using hnc⟩
            rw [hmiss] at hmem
            simp at hmem
          have hD := hall "Datum" (by decide)
          have hB := hall "Bedrag" (by decide)
          have hO := hall "Omschrijving" (by decide)
          have hR := hall "Transactiereferentie" (by decide)
          obtain ⟨v, hv⟩ :=
            parse_raw_rows_ok (clean_columns df0) hD hB hO hR (clean_columns df0).rows
          rw [hv]
          exact ⟨_, rfl⟩

/-- Concrete instance of the Rabobank agreement result on a one-row table
carrying the five required columns with a well-formed date and amount. -/
theorem validate_format_implies_parse_ok_witness :
    ∃ v, Rabo.parse_file (CsvFile.table
      { columns := ["Tegenrekening IBAN", "Transactiereferentie", "Datum",
                    "Bedrag", "Omschrijving"],
        rows := [[some "NL54RABO0310737710", some "49000000007", some "27-2-2025",
                  some "-108", some "COOKIEBOT B.V."]] }) = Except.ok v :=
  validate_format_implies_parse_ok _ (by decide)

/-- C6: the claimed validate/parse agreement fails on the code — the ICS
parser's validate_file_format does not require the Boekingsdatum column,
yet parse_file bracket-accesses it outside the ValueError-only try, so a
file with exactly the four required ICS columns validates as valid while
parsing it raises KeyError.  Evaluated at that failing input. -/
theorem ics_validate_ok_but_parse_raises :
    (Ics.validate_file_format (CsvFile.table
      { columns := ["Transactiedatum", "Omschrijving", "Debit/Credit", "Bedrag"],
        rows := [[some "01-03-2025", some "ALBERT HEIJN AMSTERDAM", some "D",
                  some "121,00"]] })).valid = true ∧
    Ics.parse_file (CsvFile.table
      { columns := ["Transactiedatum", "Omschrijving", "Debit/Credit", "Bedrag"],
        rows := [[some "01-03-2025", some "ALBERT HEIJN AMSTERDAM", some "D",
                  some "121,00"]] }) =
      Except.error "KeyError: Boekingsdatum" := ⟨by decide, by rfl⟩

/-- C9: every statement either processor path assembles carries currency
exactly EUR with no caller override, and when no opening balance is
supplied the opening balance is the literal Decimal 0.00 (value zero). -/
theorem processor_statement_currency_and_default_opening :
    (∀ (transactions : List Transaction) (info : Processor.AccountInfo)
        (an sn : Option String) (ob : Option Dec),
      (Processor.process_file_to_mt940_statement transactions info an sn ob).currency =
        "EUR" ∧
      (Processor.process_file_to_camt053_statement transactions info an sn ob).currency =
        "EUR") ∧
    (∀ (transactions : List Transaction) (info : Processor.AccountInfo)
        (an sn : Option String),
      (Processor.process_file_to_mt940_statement transactions info an sn none).opening_balance =
        ⟨0, 2⟩ ∧
      (Processor.process_file_to_camt053_statement transactions info an sn none).opening_balance =
        ⟨0, 2⟩ ∧
      (⟨0, 2⟩ : Dec).toRat = 0) :=
  ⟨fun _ _ _ _ _ => ⟨rfl, rfl⟩,
   fun _ _ _ _ => ⟨rfl, rfl, by simp [Dec.toRat]⟩⟩

/-- C2: in both business-rule passes, a non-surcharge non-settlement row
followed by a related surcharge row (same calendar date, numeric reference
one higher) yields exactly one Transaction carrying the summed amount and
the suffixed description, and the surcharge row is consumed; relatedness
unfolds to date equality plus successor references. -/
theorem surcharge_merge_single_transaction :
    (∀ (cur nxt : Rabo.RawTransaction) (rest : List Rabo.RawTransaction),
      Rabo.is_exchange_rate_surcharge cur = false →
      Rabo.is_previous_statement_settlement cur = false →
      Rabo.is_exchange_rate_surcharge nxt = true →
      Rabo.transactions_are_related cur nxt = true →
      Rabo.apply_business_rules (cur :: nxt :: rest) =
        { date := cur.date, amount := cur.amount.add nxt.amount,
          description := cur.description ++ " (incl. exchange rate surcharge)",
          counter_account := some cur.counter_account,
          reference := some cur.reference,
          transaction_type := Rabo.classify_transaction cur } ::
          Rabo.apply_business_rules rest) ∧
    (∀ (cur nxt : CsvP.RawTransaction) (rest : List CsvP.RawTransaction),
      CsvP.is_exchange_rate_surcharge cur = false →
      CsvP.is_previous_statement_settlement cur = false →
      CsvP.is_exchange_rate_surcharge nxt = true →
      CsvP.transactions_are_related cur nxt = true →
      CsvP.apply_business_rules (cur :: nxt :: rest) =
        { date := cur.date, amount := cur.amount.add nxt.amount,
          description := cur.description ++ " (incl. exchange rate surcharge)",
          counter_account := some cur.counter_account,
          reference := some cur.reference } ::
          CsvP.apply_business_rules rest) ∧
    (∀ (t1 t2 : Rabo.RawTransaction),
      Rabo.transactions_are_related t1 t2 = true ↔
        t1.date = t2.date ∧
        ∃ r1, pyInt t1.reference = some r1 ∧ pyInt t2.reference = some (r1 + 1)) := by
  refine ⟨?_, ?_, ?_⟩
  · intro cur nxt rest h1 h2 h3 h4
    simp [Rabo.apply_business_rules, h1, h2, h3, h4]
  · intro cur nxt rest h1 h2 h3 h4
    simp [CsvP.apply_business_rules, h1, h2, h3, h4]
  · intro t1 t2
    unfold Rabo.transactions_are_related
    by_cases hd : t1.date = t2.date
    · simp only [hd, ne_eq, not_true_eq_false, if_neg, if_false]
      cases hr1 : pyInt t1.reference with
      | none => simp [hd]
      | some r1 =>
        cases hr2 : pyInt t2.reference with
        | none => simp [hd]
        | some r2 => simp [hd]
    · simp [hd]

/-- Witness for C2 at the spec example rows: reference 8 then 9, same date,
amounts -19.30 and -0.39, merging to -19.69. -/
theorem surcharge_merge_single_transaction_witness :
    Rabo.apply_business_rules
      [{ counter_account := "NL92RABO0001234567", reference := "8",
         date := ⟨2025, 3, 1⟩, amount := ⟨-1930, 2⟩, description := "GTRANSLATE.COM" },
       { counter_account := "NL92RABO0001234567", reference := "9",
         date := ⟨2025, 3, 1⟩, amount := ⟨-39, 2⟩, description := "Koersopslag" }] =
      [{ date := ⟨2025, 3, 1⟩, amount := ⟨-1969, 2⟩,
         description := "GTRANSLATE.COM (incl. exchange rate surcharge)",
         counter_account := some "NL92RABO0001234567", reference := some "8",
         transaction_type := "TRANSFER" }] ∧
    CsvP.apply_business_rules
      [{ counter_account := "NL54RABO0310737710", reference := "8",
         date := ⟨2025, 3, 1⟩, amount := ⟨-1930, 2⟩, description := "GTRANSLATE.COM" },
       { counter_account := "NL54RABO0310737710", reference := "9",
         date := ⟨2025, 3, 1⟩, amount := ⟨-39, 2⟩, description := "Koersopslag" }] =
      [{ date := ⟨2025, 3, 1⟩, amount := ⟨-1969, 2⟩,
         description := "GTRANSLATE.COM (incl. exchange rate surcharge)",
         counter_account := some "NL54RABO0310737710", reference := some "8" }] :=
  ⟨(surcharge_merge_single_transaction.1 _ _ []
      (by decide) (by decide) (by decide) (by decide)).trans (by decide),
   (surcharge_merge_single_transaction.2.1 _ _ []
      (by decide) (by decide) (by decide) (by decide)).trans (by decide)⟩

/-- Counterexample to C3: the legacy CSVParser builds the settlement
Transaction without passing transaction_type, so the dataclass default
TRANSFER applies instead of the claimed CREDIT. -/
theorem settlement_credit_counterexample :
    (CsvP.apply_business_rules
      [{ counter_account := "NL54RABO0310737710", reference := "49000000009",
         date := ⟨2025, 3, 1⟩, amount := ⟨-15000, 2⟩,
         description := "Verrekening vorig overzicht" }]).map
        (fun t => t.transaction_type) = ["TRANSFER"] ∧
    ("TRANSFER" : String) ≠ "CREDIT" := by decide

/-- C3 as amended: a settlement-keyword row that does not itself match the
surcharge keyword is emitted as exactly one unmerged Transaction with the
absolute amount and the fixed description; the Rabobank pass marks it
CREDIT while the legacy CSV pass leaves the default TRANSFER. -/
theorem settlement_row_single_absolute_transaction :
    (∀ (cur : Rabo.RawTransaction) (rest : List Rabo.RawTransaction),
      Rabo.is_exchange_rate_surcharge cur = false →
      Rabo.is_previous_statement_settlement cur = true →
      Rabo.apply_business_rules (cur :: rest) =
        { date := cur.date, amount := cur.amount.dabs,
          description := "Settlement previous statement",
          counter_account := some cur.counter_account,
          reference := some cur.reference,
          transaction_type := "CREDIT" } :: Rabo.apply_business_rules rest ∧
      cur.amount.dabs.toRat = |cur.amount.toRat|) ∧
    (∀ (cur : CsvP.RawTransaction) (rest : List CsvP.RawTransaction),
      CsvP.is_exchange_rate_surcharge cur = false →
      CsvP.is_previous_statement_settlement cur = true →
      CsvP.apply_business_rules (cur :: rest) =
        { date := cur.date, amount := cur.amount.dabs,
          description := "Settlement previous statement",
          counter_account := some cur.counter_account,
          reference := some cur.reference,
          transaction_type := "TRANSFER" } :: CsvP.apply_business_rules rest ∧
      cur.amount.dabs.toRat = |cur.amount.toRat|) := by
  constructor
  · intro cur rest h1 h2
    refine ⟨?_, Dec.toRat_dabs cur.amount⟩
    cases rest with
    | nil => simp [Rabo.apply_business_rules, h1, h2, Rabo.settlement_transaction]
    | cons nxt rest2 => simp [Rabo.apply_business_rules, h1, h2, Rabo.settlement_transaction]
  · intro cur rest h1 h2
    refine ⟨?_, Dec.toRat_dabs cur.amount⟩
    cases rest with
    | nil => simp [CsvP.apply_business_rules, h1, h2, CsvP.settlement_transaction]
    | cons nxt rest2 => simp [CsvP.apply_business_rules, h1, h2, CsvP.settlement_transaction]

/-- Witness for the amended C3 at the spec example: a -150.00 settlement
row becomes +150.00 with the fixed description in both passes. -/
theorem settlement_row_single_absolute_transaction_witness :
    Rabo.apply_business_rules
      [{ counter_account := "NL92RABO0001234567", reference := "49000000008",
         date := ⟨2025, 2, 28⟩, amount := ⟨-15000, 2⟩,
         description := "Verrekening vorig overzicht" }] =
      [{ date := ⟨2025, 2, 28⟩, amount := ⟨15000, 2⟩,
         description := "Settlement previous statement",
         counter_account := some "NL92RABO0001234567",
         reference := some "49000000008", transaction_type := "CREDIT" }] ∧
    CsvP.apply_business_rules
      [{ counter_account := "NL54RABO0310737710", reference := "49000000008",
         date := ⟨2025, 2, 28⟩, amount := ⟨-15000, 2⟩,
         description := "Verrekening vorig overzicht" }] =
      [{ date := ⟨2025, 2, 28⟩, amount := ⟨15000, 2⟩,
         description := "Settlement previous statement",
         counter_account := some "NL54RABO0310737710",
         reference := some "49000000008", transaction_type := "TRANSFER" }] :=
  ⟨((settlement_row_single_absolute_transaction.1 _ []
      (by decide) (by decide)).1).trans (by decide),
   ((settlement_row_single_absolute_transaction.2 _ []
      (by decide) (by decide)).1).trans (by decide)⟩

/-- C4: every ICS row flagged D or C is emitted with the negated source
amount; the type is TRANSFER for D and CREDIT for C, and a settlement
keyword still forces CREDIT while keeping the flipped amount. -/
theorem ics_sign_flip (i : Nat) (r : Ics.RawTransaction)
    (h : r.debit_credit = "D" ∨ r.debit_credit = "C") :
    (Ics.process_row i r).amount = r.amount.neg ∧
    (Ics.process_row i r).amount.toRat = -(r.amount.toRat) ∧
    (Ics.process_row i r).transaction_type =
      (if Ics.is_previous_statement_settlement r then "CREDIT"
       else if r.debit_credit = "D" then "TRANSFER" else "CREDIT") := by
  have hflip : Ics.apply_ics_sign_logic r =
      (r.amount.neg, if r.debit_credit = "D" then "TRANSFER" else "CREDIT") := by
    rcases h with h | h <;> simp [Ics.apply_ics_sign_logic, h]
  by_cases hset : Ics.is_previous_statement_settlement r <;>
    simp [Ics.process_row, hset, hflip, Dec.toRat_neg]

/-- Witness for C4 at the two spec examples: a debit-flagged 121.00 row
flips to -121.00 with type TRANSFER, and a credit-flagged settlement row of
-1304.91 flips to +1304.91 with type CREDIT. -/
theorem ics_sign_flip_witness :
    (Ics.process_row 0
      { transaction_date := ⟨2025, 3, 1⟩, booking_date := ⟨2025, 3, 2⟩,
        description := "ALBERT HEIJN AMSTERDAM", cardholder_name := "J DOE",
        card_number := "****1234", debit_credit := "D",
        amount := ⟨12100, 2⟩ }).amount = ⟨-12100, 2⟩ ∧
    (Ics.process_row 0
      { transaction_date := ⟨2025, 3, 1⟩, booking_date := ⟨2025, 3, 2⟩,
        description := "ALBERT HEIJN AMSTERDAM", cardholder_name := "J DOE",
        card_number := "****1234", debit_credit := "D",
        amount := ⟨12100, 2⟩ }).transaction_type = "TRANSFER" ∧
    (Ics.process_row 3
      { transaction_date := ⟨2025, 3, 5⟩, booking_date := ⟨2025, 3, 5⟩,
        description := "Geincasseerd vorig saldo", cardholder_name := "J DOE",
        card_number := "****1234", debit_credit := "C",
        amount := ⟨-130491, 2⟩ }).amount = ⟨130491, 2⟩ ∧
    (Ics.process_row 3
      { transaction_date := ⟨2025, 3, 5⟩, booking_date := ⟨2025, 3, 5⟩,
        description := "Geincasseerd vorig saldo", cardholder_name := "J DOE",
        card_number := "****1234", debit_credit := "C",
        amount := ⟨-130491, 2⟩ }).transaction_type = "CREDIT" := by
  have h1 := ics_sign_flip 0
    { transaction_date := ⟨2025, 3, 1⟩, booking_date := ⟨2025, 3, 2⟩,
      description := "ALBERT HEIJN AMSTERDAM", cardholder_name := "J DOE",
      card_number := "****1234", debit_credit := "D",
      amount := ⟨12100, 2⟩ } (Or.inl rfl)
  have h2 := ics_sign_flip 3
    { transaction_date := ⟨2025, 3, 5⟩, booking_date := ⟨2025, 3, 5⟩,
      description := "Geincasseerd vorig saldo", cardholder_name := "J DOE",
      card_number := "****1234", debit_credit := "C",
      amount := ⟨-130491, 2⟩ } (Or.inr rfl)
  refine ⟨h1.1.trans (by decide), ?_, h2.1.trans (by decide), ?_⟩
  · rw [h1.2.2]
    decide
  · rw [h2.2.2]
    decide

/-- Counterexample to C10: an ICS row whose flag is neither D nor C but
whose description matches a settlement keyword is emitted with type CREDIT
(the settlement branch overrides), not the claimed TRANSFER; the amount is
indeed kept unchanged. -/
theorem ics_unknown_flag_counterexample :
    (Ics.process_row 0
      { transaction_date := ⟨2025, 3, 1⟩, booking_date := ⟨2025, 3, 1⟩,
        description := "Geincasseerd vorig saldo", cardholder_name := "J DOE",
        card_number := "****1234", debit_credit := "",
        amount := ⟨-500, 2⟩ }).transaction_type = "CREDIT" ∧
    ("CREDIT" : String) ≠ "TRANSFER" ∧
    (Ics.process_row 0
      { transaction_date := ⟨2025, 3, 1⟩, booking_date := ⟨2025, 3, 1⟩,
        description := "Geincasseerd vorig saldo", cardholder_name := "J DOE",
        card_number := "****1234", debit_credit := "",
        amount := ⟨-500, 2⟩ }).amount = ⟨-500, 2⟩ := by decide

/-- C10 as amended: an ICS row whose flag is neither D nor C keeps its
source amount unchanged; its type is TRANSFER unless the description
matches a settlement keyword, which forces CREDIT (amount still
unchanged). -/
theorem ics_unknown_flag_keeps_amount (i : Nat) (r : Ics.RawTransaction)
    (h1 : r.debit_credit ≠ "D") (h2 : r.debit_credit ≠ "C") :
    (Ics.process_row i r).amount = r.amount ∧
    (Ics.process_row i r).transaction_type =
      (if Ics.is_previous_statement_settlement r then "CREDIT" else "TRANSFER") := by
  have hflip : Ics.apply_ics_sign_logic r = (r.amount, "TRANSFER") := by
    simp [Ics.apply_ics_sign_logic, h1, h2]
  by_cases hset : Ics.is_previous_statement_settlement r <;>
    simp [Ics.process_row, hset, hflip]

/-- Witness for the amended C10: a blank-flagged ordinary row keeps its
amount and is classified TRANSFER. -/
theorem ics_unknown_flag_keeps_amount_witness :
    (Ics.process_row 2
      { transaction_date := ⟨2025, 3, 9⟩, booking_date := ⟨2025, 3, 9⟩,
        description := "BOL.COM UTRECHT", cardholder_name := "J DOE",
        card_number := "****1234", debit_credit := "",
        amount := ⟨4250, 2⟩ }).amount = ⟨4250, 2⟩ ∧
    (Ics.process_row 2
      { transaction_date := ⟨2025, 3, 9⟩, booking_date := ⟨2025, 3, 9⟩,
        description := "BOL.COM UTRECHT", cardholder_name := "J DOE",
        card_number := "****1234", debit_credit := "",
        amount := ⟨4250, 2⟩ }).transaction_type = "TRANSFER" := by
  have h := ics_unknown_flag_keeps_amount 2
    { transaction_date := ⟨2025, 3, 9⟩, booking_date := ⟨2025, 3, 9⟩,
      description := "BOL.COM UTRECHT", cardholder_name := "J DOE",
      card_number := "****1234", debit_credit := "",
      amount := ⟨4250, 2⟩ } (by decide) (by decide)
  refine ⟨h.1, ?_⟩
  rw [h.2]
  decide

set_option maxRecDepth 100000 in
/-- Counterexample to C7: both formatters embed the wall clock of the call
(the CAMT.053 message id and creation timestamps always; the MT940 balance
dates when the statement has no date), so two calls at different clock
readings give different bytes even for the same statement and fresh
counters. -/
theorem format_statement_repeat_counterexample :
    Camt.format_statement
        { account_number := "NL54RABO0310737710", statement_number := "CC20250301",
          opening_balance := ⟨0, 2⟩, closing_balance := ⟨-1969, 2⟩,
          transactions := [
            { date := ⟨2025, 3, 1⟩, amount := ⟨-1969, 2⟩,
              description := "GTRANSLATE.COM (incl. exchange rate surcharge)",
              counter_account := some "NL54RABO0310737710",
              reference := some "49000000008" }],
          currency := "EUR", date := some ⟨2025, 3, 27⟩ }
        ⟨⟨2025, 3, 27⟩, 10, 0, 0⟩ ≠
      Camt.format_statement
        { account_number := "NL54RABO0310737710", statement_number := "CC20250301",
          opening_balance := ⟨0, 2⟩, closing_balance := ⟨-1969, 2⟩,
          transactions := [
            { date := ⟨2025, 3, 1⟩, amount := ⟨-1969, 2⟩,
              description := "GTRANSLATE.COM (incl. exchange rate surcharge)",
              counter_account := some "NL54RABO0310737710",
              reference := some "49000000008" }],
          currency := "EUR", date := some ⟨2025, 3, 27⟩ }
        ⟨⟨2025, 3, 28⟩, 11, 30, 5⟩ ∧
    MT940.format_statement 1
        { account_number := "NL54RABO0310737710", statement_number := "CC20250301",
          opening_balance := ⟨0, 2⟩, closing_balance := ⟨-1969, 2⟩,
          transactions := [], currency := "EUR", date := none }
        ⟨⟨2025, 3, 27⟩, 10, 0, 0⟩ ≠
      MT940.format_statement 1
        { account_number := "NL54RABO0310737710", statement_number := "CC20250301",
          opening_balance := ⟨0, 2⟩, closing_balance := ⟨-1969, 2⟩,
          transactions := [], currency := "EUR", date := none }
        ⟨⟨2025, 3, 28⟩, 11, 30, 5⟩ := by decide

/-- C7 as amended: MT940 formatting of a statement that carries a date is
byte-identical across calls, whatever counter state the formatter holds and
whatever the clock reads (the counter is reset on entry and the clock is
only consulted as a fallback for a missing statement date); output depends
on the clock only through that fallback, and through the CAMT.053
timestamps exhibited in the counterexample. -/
theorem mt940_format_deterministic (c1 c2 : Nat) (s : AccountStatement)
    (now1 now2 : DateTime) (d : Date) (h : s.date = some d) :
    MT940.format_statement c1 s now1 = MT940.format_statement c2 s now2 := by
  unfold MT940.format_statement MT940.statement_lines
  simp [h]

/-- Witness for the amended C7: a dated statement formats identically under
different counters and clocks. -/
theorem mt940_format_deterministic_witness :
    MT940.format_statement 1
        { account_number := "NL54RABO0310737710", statement_number := "CC20250301",
          opening_balance := ⟨0, 2⟩, closing_balance := ⟨78471, 2⟩,
          transactions := [
            { date := ⟨2025, 3, 1⟩, amount := ⟨-1969, 2⟩,
              description := "GTRANSLATE.COM (incl. exchange rate surcharge)",
              counter_account := some "NL54RABO0310737710",
              reference := some "49000000008" }],
          currency := "EUR", date := some ⟨2025, 3, 27⟩ }
        ⟨⟨2025, 3, 27⟩, 10, 0, 0⟩ =
      MT940.format_statement 7
        { account_number := "NL54RABO0310737710", statement_number := "CC20250301",
          opening_balance := ⟨0, 2⟩, closing_balance := ⟨78471, 2⟩,
          transactions := [
            { date := ⟨2025, 3, 1⟩, amount := ⟨-1969, 2⟩,
              description := "GTRANSLATE.COM (incl. exchange rate surcharge)",
              counter_account := some "NL54RABO0310737710",
              reference := some "49000000008" }],
          currency := "EUR", date := some ⟨2025, 3, 27⟩ }
        ⟨⟨2025, 3, 28⟩, 11, 30, 5⟩ :=
  mt940_format_deterministic 1 7 _ _ _ ⟨2025, 3, 27⟩ rfl

/-- C8: every MT940 balance line of a two-decimal amount has exactly the
claimed form (flag C when the amount is non-negative and D otherwise, the
two-digit-year date, the currency, the absolute amount with its integer
part zero-padded to width nine, a comma, and exactly two fractional
digits), and every statement line list ends with the 62F closing line
followed by the field 64 and field 65 lines, all three carrying the
closing balance. -/
theorem mt940_balance_line_encoding :
    (∀ (field_code : String) (amount : Dec) (currency : String) (d : Date),
      amount.exp ≤ 2 →
      MT940.format_balance field_code amount currency d =
        spec_balance_line field_code amount currency d ∧
      (((amount.dabs.alignedNum 2).natAbs : ℚ)) = |amount.toRat| * 100 ∧
      (padLeftChar '0' 2 (natToChars ((amount.dabs.alignedNum 2).natAbs % 100))).length =
        2) ∧
    (∀ (s : AccountStatement) (now : DateTime), ∃ pre,
      MT940.statement_lines s now = pre ++
        [MT940.format_balance "62F" s.closing_balance s.currency (s.date.getD now.date),
         MT940.format_balance "64" s.closing_balance s.currency (s.date.getD now.date),
         MT940.format_balance "65" s.closing_balance s.currency (s.date.getD now.date)]) := by
  constructor
  · intro f a c d h
    exact ⟨format_balance_eq_spec f a c d h, spec_balance_cents a h,
      padLeftChar_length (natToChars_length_le_two (Nat.mod_lt _ (by norm_num)))⟩
  · intro s now
    refine ⟨[":940:", ":20:" ++ pyReplace s.statement_number "CC" "940S",
      ":25:" ++ s.account_number ++ " " ++ s.currency,
      ":28C:" ++ (if (pyReplace (pyReplace s.statement_number "CC20" "") "25" "25").length > 5
        then (pyReplace (pyReplace s.statement_number "CC20" "") "25" "25").drop
          ((pyReplace (pyReplace s.statement_number "CC20" "") "25" "25").length - 5)
        else pyReplace (pyReplace s.statement_number "CC20" "") "25" "25"),
      MT940.format_balance "60F" s.opening_balance s.currency (s.date.getD now.date)] ++
      MT940.transaction_lines 1 s.transactions, ?_⟩
    simp only [MT940.statement_lines]

/-- Witness for C8 at the worked closing balance 784.71 on the statement
date, field 62F. -/
theorem mt940_balance_line_encoding_witness :
    MT940.format_balance "62F" ⟨78471, 2⟩ "EUR" ⟨2025, 3, 27⟩ =
      spec_balance_line "62F" ⟨78471, 2⟩ "EUR" ⟨2025, 3, 27⟩ ∧
    ((((⟨78471, 2⟩ : Dec).dabs.alignedNum 2).natAbs : ℚ)) =
      |(⟨78471, 2⟩ : Dec).toRat| * 100 ∧
    (padLeftChar '0' 2
      (natToChars (((⟨78471, 2⟩ : Dec).dabs.alignedNum 2).natAbs % 100))).length = 2 :=
  mt940_balance_line_encoding.1 "62F" ⟨78471, 2⟩ "EUR" ⟨2025, 3, 27⟩ (by decide)
